import Mathlib

/-!
Verification of the battery dispatch optimizer.

This file is a shallow embedding, over exact rational arithmetic, of the core
optimization pipeline of the repository:

* `src/optimization.py` (`run_optimization`, `generate_monthly_summary`) — the
  streamlit core;
* `desktop_app/battery_optimizer_gui/core/optimization_engine.py`
  (`_solve_daily_optimization`, `_calculate_slot_pnl`, `_generate_summary`,
  `_generate_monthly_summary`) — the V1 desktop engine;
* `desktop_app/battery_optimizer_gui/core/optimization_engine_v2.py` — the V2
  engine with stochastic EPRX3 activation;
* `desktop_app/battery_optimizer_gui/config/area_config.py` — the regional
  wheeling tariff table.

The MILP solver itself is external (PuLP/CBC); it is modelled by its contract:
when it reports an optimal status it returns an assignment of the decision
variables satisfying every constraint the code posted.  The predicate
`Feasible` below is a direct transcription of that constraint set, and the
post-solve extraction of actions, energies, SoC and PnL is transcribed as
ordinary functions.  Python floats are modelled as rationals (`NaN` as `none`
in an `Option`), and Python's `round` builtin (banker's rounding) as
`roundHalfEven`.
-/

namespace BatteryOpt

/-- Python's builtin `round` to an integer: round half to even. -/
def roundHalfEven (q : ℚ) : ℤ :=
  if q - ⌊q⌋ < 1/2 then ⌊q⌋
  else if q - ⌊q⌋ > 1/2 then ⌊q⌋ + 1
  else if Even ⌊q⌋ then ⌊q⌋ else ⌊q⌋ + 1

/-- Python's `round(x, 2)`. -/
def round2 (q : ℚ) : ℚ := (roundHalfEven (q * 100) : ℚ) / 100

/-- Python's `round(x, 3)`. -/
def round3 (q : ℚ) : ℚ := (roundHalfEven (q * 1000) : ℚ) / 1000

/-- Numeric value of a binary indicator variable. -/
def b2q (b : Bool) : ℚ := if b then 1 else 0

/-- Consumption tax multiplier, `TAX = 1.1` in `src/optimization.py` line 24
(and the local `TAX = 1.1` of both desktop engines). -/
def TAX : ℚ := 1.1

/-- One row of the input price series (`df_day.loc[i]`).  A missing value
(`NaN`, for which the code tests `pd.isna`) is modelled as `none`.  The date
is a `(year, month, day)` triple. -/
structure PriceRow where
  date : ℕ × ℕ × ℕ
  slot : ℕ
  JEPX_prediction : Option ℚ
  JEPX_actual : Option ℚ
  EPRX1_prediction : Option ℚ
  EPRX1_actual : Option ℚ
  EPRX3_prediction : Option ℚ
  EPRX3_actual : Option ℚ
  imbalance : Option ℚ
deriving DecidableEq, Inhabited

/-- The battery / run parameters of `run_optimization` that the daily MILP
reads (the wheeling loss rate is looked up once per run and then fixed). -/
structure BatteryParams where
  battery_power_kW : ℚ
  battery_capacity_kWh : ℚ
  battery_loss_rate : ℚ
  daily_cycle_limit : ℚ
  eprx1_block_size : ℕ
  eprx1_block_cooldown : ℕ
  max_daily_eprx1_slots : ℕ
  wheeling_loss_rate : ℚ
deriving DecidableEq

/-- `half_power_kWh = battery_power_kW * 0.5` (line 83 of
`src/optimization.py`). -/
def BatteryParams.half_power_kWh (p : BatteryParams) : ℚ :=
  p.battery_power_kW * (1/2)

/-- An assignment of the per-day MILP decision variables: the continuous
`charge`/`discharge` fractions, the binary action indicators, the EPRX1
`block_start` binaries and the boundary SoC sequence `battery_soc[0..n]`.
Indices beyond the window are irrelevant (every constraint is bounded). -/
structure DayVars where
  charge : ℕ → ℚ
  discharge : ℕ → ℚ
  block_start : ℕ → Bool
  is_in_block : ℕ → Bool
  is_charge : ℕ → Bool
  is_discharge : ℕ → Bool
  is_eprx3 : ℕ → Bool
  is_idle : ℕ → Bool
  battery_soc : ℕ → ℚ

/-- Row access `df_day.loc[i]` (always used with `i < day_slots`). -/
def getRow (w : List PriceRow) (i : ℕ) : PriceRow := w.getD i default

/-- The test `pd.isna(x) or x == 0` used by the EPRX1/EPRX3 price-gating
constraints (lines 159-163 and 188-193 of `src/optimization.py`). -/
def missingOrZero (o : Option ℚ) : Prop := o = none ∨ o = some 0

instance (o : Option ℚ) : Decidable (missingOrZero o) := by
  unfold missingOrZero; infer_instance

/-- The list `possible_starts` of constraint (A) (lines 152-157): all `x` in
`range(max(0, i - (M - 1)), i + 1)` with `x + M - 1 >= i`.  Bounds are taken
in `ℤ` to match Python integer arithmetic. -/
def possibleStarts (M i : ℕ) : List ℕ :=
  (List.range (i + 1)).filter fun x =>
    decide (max 0 ((i : ℤ) - ((M : ℤ) - 1)) ≤ (x : ℤ)) &&
    decide ((i : ℤ) ≤ (x : ℤ) + (M : ℤ) - 1)

/-- Variable bounds posted at variable creation (lines 104-122):
`charge`, `discharge` in `[0, 1]` and `battery_soc` in
`[0, battery_capacity_kWh]`. -/
def VarBounds (p : BatteryParams) (n : ℕ) (v : DayVars) : Prop :=
  (∀ i, i < n → 0 ≤ v.charge i ∧ v.charge i ≤ 1) ∧
  (∀ i, i < n → 0 ≤ v.discharge i ∧ v.discharge i ≤ 1) ∧
  (∀ i, i < n + 1 → 0 ≤ v.battery_soc i ∧ v.battery_soc i ≤ p.battery_capacity_kWh)

/-- Action exclusivity (line 143): the five indicators sum to one. -/
def Exclusivity (n : ℕ) (v : DayVars) : Prop :=
  ∀ i, i < n →
    b2q (v.is_charge i) + b2q (v.is_discharge i) + b2q (v.is_in_block i) +
      b2q (v.is_eprx3 i) + b2q (v.is_idle i) = 1

/-- Linkage of continuous and binary variables (lines 146-147):
`charge[i] <= is_charge[i]`, `discharge[i] <= is_discharge[i]`. -/
def Linkage (n : ℕ) (v : DayVars) : Prop :=
  ∀ i, i < n →
    v.charge i ≤ b2q (v.is_charge i) ∧ v.discharge i ≤ b2q (v.is_discharge i)

/-- Constraint (A), EPRX1 block contiguity (lines 151-157):
`is_in_block[i] == sum(block_start[x] for x in possible_starts)`. -/
def BlockContiguity (M n : ℕ) (v : DayVars) : Prop :=
  ∀ i, i < n →
    b2q (v.is_in_block i) =
      ((possibleStarts M i).map fun x => b2q (v.block_start x)).sum

/-- Constraint (A′), EPRX3 price gating (lines 159-163): a null or zero
`EPRX3_prediction` forces `is_eprx3[i] == 0`. -/
def Eprx3Gating (w : List PriceRow) (v : DayVars) : Prop :=
  ∀ i, i < w.length →
    missingOrZero (getRow w i).EPRX3_prediction → v.is_eprx3 i = false

/-- Constraint (C), the SoC transition (lines 165-170). -/
def SocTransition (p : BatteryParams) (n : ℕ) (v : DayVars) : Prop :=
  ∀ i, i < n →
    v.battery_soc (i + 1) =
      v.battery_soc i + v.charge i * p.half_power_kWh
        - v.discharge i * p.half_power_kWh
        - b2q (v.is_eprx3 i) * p.half_power_kWh

/-- Constraint (E), EPRX1 cooldown and window-tail exclusion (lines 175-181):
no two block starts within `[i+1, min(n, i+M+C))`, and no start in the last
`M - 1` slots (`i > day_slots - M`, Python integer comparison). -/
def Cooldown (M C n : ℕ) (v : DayVars) : Prop :=
  (∀ i, i < n → ∀ j, i + 1 ≤ j → j < min n (i + M + C) →
      b2q (v.block_start i) + b2q (v.block_start j) ≤ 1) ∧
  (∀ i, i < n → (n : ℤ) - (M : ℤ) < (i : ℤ) → v.block_start i = false)

/-- Constraint (F), daily cycle cap (lines 184-186), posted only when
`daily_cycle_limit > 0`. -/
def DailyCycleCap (p : BatteryParams) (n : ℕ) (v : DayVars) : Prop :=
  0 < p.daily_cycle_limit →
    ((List.range n).map fun i => v.charge i).sum * p.half_power_kWh ≤
      p.daily_cycle_limit * p.battery_capacity_kWh

/-- Constraint (G), EPRX1 price gating (lines 188-193): a block may not start
at `i` if any slot of its span (truncated at the window end) has a null or
zero `EPRX1_prediction`. -/
def Eprx1Gating (M : ℕ) (w : List PriceRow) (v : DayVars) : Prop :=
  ∀ i, i < w.length → ∀ s, i ≤ s → s < min (i + M) w.length →
    missingOrZero (getRow w s).EPRX1_prediction → v.block_start i = false

/-- Constraint (H), the EPRX1 SoC band via big-M relaxation (lines 195-198)
with `bigM = 999999` (line 126). -/
def SocBand (p : BatteryParams) (n : ℕ) (v : DayVars) : Prop :=
  ∀ i, i < n →
    (2/5 : ℚ) * p.battery_capacity_kWh - (1 - b2q (v.is_in_block i)) * 999999 ≤
        v.battery_soc i ∧
    v.battery_soc i ≤
      (3/5 : ℚ) * p.battery_capacity_kWh + (1 - b2q (v.is_in_block i)) * 999999

/-- Constraint (I), the daily EPRX1 slot cap (lines 200-202), posted only when
`max_daily_eprx1_slots > 0`. -/
def Eprx1SlotCap (p : BatteryParams) (n : ℕ) (v : DayVars) : Prop :=
  0 < p.max_daily_eprx1_slots →
    ((List.range n).map fun i => b2q (v.is_in_block i)).sum ≤
      (p.max_daily_eprx1_slots : ℚ)

/-- The full constraint set of the daily MILP built by `run_optimization`
(`src/optimization.py` lines 101-202; `_solve_daily_optimization` of both
desktop engines posts the identical set).  `carry_over_soc` is constraint (D),
`battery_soc[0] == carry_over_soc` (line 173).  A solver run that reports an
`Optimal` status returns an assignment satisfying `Feasible`. -/
def Feasible (p : BatteryParams) (w : List PriceRow) (carry_over_soc : ℚ)
    (v : DayVars) : Prop :=
  VarBounds p w.length v ∧
  Exclusivity w.length v ∧
  Linkage w.length v ∧
  BlockContiguity p.eprx1_block_size w.length v ∧
  Eprx3Gating w v ∧
  SocTransition p w.length v ∧
  v.battery_soc 0 = carry_over_soc ∧
  Cooldown p.eprx1_block_size p.eprx1_block_cooldown w.length v ∧
  DailyCycleCap p w.length v ∧
  Eprx1Gating p.eprx1_block_size w v ∧
  SocBand p w.length v ∧
  Eprx1SlotCap p w.length v

instance (p : BatteryParams) (n : ℕ) (v : DayVars) : Decidable (VarBounds p n v) := by
  unfold VarBounds; infer_instance
instance (n : ℕ) (v : DayVars) : Decidable (Exclusivity n v) := by
  unfold Exclusivity; infer_instance
instance (n : ℕ) (v : DayVars) : Decidable (Linkage n v) := by
  unfold Linkage; infer_instance
instance (M n : ℕ) (v : DayVars) : Decidable (BlockContiguity M n v) := by
  unfold BlockContiguity; infer_instance
instance (w : List PriceRow) (v : DayVars) : Decidable (Eprx3Gating w v) := by
  unfold Eprx3Gating; infer_instance
instance (p : BatteryParams) (n : ℕ) (v : DayVars) : Decidable (SocTransition p n v) := by
  unfold SocTransition; infer_instance
instance (M C n : ℕ) (v : DayVars) : Decidable (Cooldown M C n v) := by
  unfold Cooldown; infer_instance
instance (p : BatteryParams) (n : ℕ) (v : DayVars) : Decidable (DailyCycleCap p n v) := by
  unfold DailyCycleCap; infer_instance
instance (M : ℕ) (w : List PriceRow) (v : DayVars) : Decidable (Eprx1Gating M w v) := by
  unfold Eprx1Gating; infer_instance
instance (p : BatteryParams) (n : ℕ) (v : DayVars) : Decidable (SocBand p n v) := by
  unfold SocBand; infer_instance
instance (p : BatteryParams) (n : ℕ) (v : DayVars) : Decidable (Eprx1SlotCap p n v) := by
  unfold Eprx1SlotCap; infer_instance
instance (p : BatteryParams) (w : List PriceRow) (c : ℚ) (v : DayVars) :
    Decidable (Feasible p w c v) := by
  unfold Feasible; infer_instance

/-- The five mutually exclusive slot actions. -/
inductive Action
  | charge
  | discharge
  | eprx1
  | eprx3
  | idle
deriving DecidableEq, Inhabited

/-- Post-solve action read-back of the streamlit core (lines 251-260 of
`src/optimization.py`): priority eprx1 > charge > discharge > eprx3 > idle.
For a binary variable the test `pulp.value(x) > 0.5` is the variable itself. -/
def chooseAction (v : DayVars) (i : ℕ) : Action :=
  if v.is_in_block i then .eprx1
  else if v.is_charge i then .charge
  else if v.is_discharge i then .discharge
  else if v.is_eprx3 i then .eprx3
  else .idle

/-- `x if not pd.isna(x) else 0.0` on an actual-price cell. -/
def orZero (o : Option ℚ) : ℚ := o.getD 0

/-- One output row of the optimizer (the dict built at lines 307-325 of
`src/optimization.py`; the desktop engines produce the same fields).  Monetary
PnL fields are whole currency units (`round(x)`), energies are rounded to 3
decimals and the SoC to 2. -/
structure SlotDecision where
  date : ℕ × ℕ × ℕ
  slot : ℕ
  action : Action
  battery_level_kWh : ℚ
  charge_kWh : ℚ
  discharge_kWh : ℚ
  EPRX3_kWh : ℚ
  loss_kWh : ℚ
  JEPX_actual : ℚ
  EPRX1_actual : ℚ
  EPRX3_actual : ℚ
  imbalance : ℚ
  JEPX_PnL : ℤ
  EPRX1_PnL : ℤ
  EPRX3_PnL : ℤ
  Total_Daily_PnL : ℤ
deriving DecidableEq, Inhabited

/-- The per-action settlement quantities of lines 267-302 of
`src/optimization.py`: effective energy, internal loss, and the three market
PnL components (unrounded), as functions of the solved values and the actual
prices.  Returned as `(effective_kwh, loss_kwh, jepx, eprx1, eprx3)`. -/
def settleSlot (p : BatteryParams) (row : PriceRow) (cVal dVal : ℚ)
    (act : Action) : ℚ × ℚ × ℚ × ℚ × ℚ :=
  let j_a := orZero row.JEPX_actual
  let e1_a := orZero row.EPRX1_actual
  let e3_a := orZero row.EPRX3_actual
  let imb_a := orZero row.imbalance
  match act with
  | .charge =>
      let c_kwh := cVal * p.half_power_kWh
      (c_kwh, 0, -(j_a * TAX * (c_kwh / (1 - p.wheeling_loss_rate))), 0, 0)
  | .discharge =>
      let d_kwh := dVal * p.half_power_kWh
      let effective_kwh := d_kwh * (1 - p.battery_loss_rate)
      (effective_kwh, d_kwh * p.battery_loss_rate, j_a * TAX * effective_kwh, 0, 0)
  | .eprx1 =>
      (0, 0, 0, e1_a * TAX * p.battery_power_kW, 0)
  | .eprx3 =>
      let effective_kwh := p.half_power_kWh * (1 - p.battery_loss_rate)
      let kW_value := p.battery_power_kW * e3_a
      let kWh_value := p.half_power_kWh * (1 - p.battery_loss_rate) * imb_a
      (effective_kwh, p.half_power_kWh * p.battery_loss_rate, 0, 0,
        TAX * (kW_value + kWh_value))
  | .idle => (0, 0, 0, 0, 0)

/-- The unrounded `slot_total_pnl` accumulated into `day_profit`
(lines 304-305): the streamlit totals are summed before rounding. -/
def slotPnlQ (p : BatteryParams) (row : PriceRow) (v : DayVars) (i : ℕ) : ℚ :=
  let s := settleSlot p row (v.charge i) (v.discharge i) (chooseAction v i)
  s.2.2.1 + s.2.2.2.1 + s.2.2.2.2

/-- The output row for slot `i` (lines 247-326 of `src/optimization.py`). -/
def extractSlot (p : BatteryParams) (row : PriceRow) (v : DayVars) (i : ℕ) :
    SlotDecision :=
  let c_val := v.charge i
  let d_val := v.discharge i
  let act := chooseAction v i
  let s := settleSlot p row c_val d_val act
  let effective_kwh := s.1
  let loss_kwh := s.2.1
  let jepx := s.2.2.1
  let eprx1 := s.2.2.2.1
  let eprx3 := s.2.2.2.2
  { date := row.date
    slot := row.slot
    action := act
    battery_level_kWh := round2 (v.battery_soc (i + 1))
    charge_kWh := if act = .charge then round3 (c_val * p.half_power_kWh) else 0
    discharge_kWh := if act = .discharge then round3 effective_kwh else 0
    EPRX3_kWh := if act = .eprx3 then round3 effective_kwh else 0
    loss_kWh := round3 loss_kwh
    JEPX_actual := round3 (orZero row.JEPX_actual)
    EPRX1_actual := round3 (orZero row.EPRX1_actual)
    EPRX3_actual := round3 (orZero row.EPRX3_actual)
    imbalance := round3 (orZero row.imbalance)
    JEPX_PnL := roundHalfEven jepx
    EPRX1_PnL := roundHalfEven eprx1
    EPRX3_PnL := roundHalfEven eprx3
    Total_Daily_PnL := roundHalfEven (jepx + eprx1 + eprx3) }

/-- `day_transactions`: the ordered rows of one solved window. -/
def dayDecisions (p : BatteryParams) (w : List PriceRow) (v : DayVars) :
    List SlotDecision :=
  (List.range w.length).map fun i => extractSlot p (getRow w i) v i

section ActionLemmas

variable {v : DayVars} {i : ℕ}

/-- Reading back `eprx3` pins down all four relevant indicators. -/
lemma action_eprx3_vars (h : chooseAction v i = .eprx3) :
    v.is_in_block i = false ∧ v.is_charge i = false ∧
      v.is_discharge i = false ∧ v.is_eprx3 i = true := by
  unfold chooseAction at h
  cases h1 : v.is_in_block i <;> cases h2 : v.is_charge i <;>
    cases h3 : v.is_discharge i <;> cases h4 : v.is_eprx3 i <;> simp_all

/-- Reading back `eprx1` means the block indicator was set. -/
lemma action_eprx1_vars (h : chooseAction v i = .eprx1) :
    v.is_in_block i = true := by
  unfold chooseAction at h
  cases h1 : v.is_in_block i <;> cases h2 : v.is_charge i <;>
    cases h3 : v.is_discharge i <;> cases h4 : v.is_eprx3 i <;> simp_all

/-- Reading back `idle` means no indicator was set. -/
lemma action_idle_vars (h : chooseAction v i = .idle) :
    v.is_in_block i = false ∧ v.is_charge i = false ∧
      v.is_discharge i = false ∧ v.is_eprx3 i = false := by
  unfold chooseAction at h
  cases h1 : v.is_in_block i <;> cases h2 : v.is_charge i <;>
    cases h3 : v.is_discharge i <;> cases h4 : v.is_eprx3 i <;> simp_all

/-- Reading back `charge` means the block indicator was clear and the charge
indicator set. -/
lemma action_charge_vars (h : chooseAction v i = .charge) :
    v.is_in_block i = false ∧ v.is_charge i = true := by
  unfold chooseAction at h
  cases h1 : v.is_in_block i <;> cases h2 : v.is_charge i <;>
    cases h3 : v.is_discharge i <;> cases h4 : v.is_eprx3 i <;> simp_all

/-- Reading back `discharge` pins down the first three indicators. -/
lemma action_discharge_vars (h : chooseAction v i = .discharge) :
    v.is_in_block i = false ∧ v.is_charge i = false ∧
      v.is_discharge i = true := by
  unfold chooseAction at h
  cases h1 : v.is_in_block i <;> cases h2 : v.is_charge i <;>
    cases h3 : v.is_discharge i <;> cases h4 : v.is_eprx3 i <;> simp_all

end ActionLemmas

section FeasLemmas

variable {p : BatteryParams} {n : ℕ} {v : DayVars}

/-- Exclusivity forces the other indicators off while in an EPRX1 block. -/
lemma in_block_excl (hEx : Exclusivity n v) {i : ℕ} (hi : i < n)
    (hb : v.is_in_block i = true) :
    v.is_charge i = false ∧ v.is_discharge i = false ∧ v.is_eprx3 i = false := by
  have hsum := hEx i hi
  cases h1 : v.is_charge i <;> cases h2 : v.is_discharge i <;>
    cases h3 : v.is_eprx3 i <;> cases h4 : v.is_idle i <;>
      simp [b2q, h1, h2, h3, h4, hb] at hsum ⊢ <;> norm_num at hsum

/-- A cleared charge indicator zeroes the continuous charge variable. -/
lemma charge_eq_zero (hB : VarBounds p n v) (hL : Linkage n v) {i : ℕ}
    (hi : i < n) (hc : v.is_charge i = false) : v.charge i = 0 :=
  le_antisymm (by simpa [b2q, hc] using (hL i hi).1) (hB.1 i hi).1

/-- A cleared discharge indicator zeroes the continuous discharge variable. -/
lemma discharge_eq_zero (hB : VarBounds p n v) (hL : Linkage n v) {i : ℕ}
    (hi : i < n) (hd : v.is_discharge i = false) : v.discharge i = 0 :=
  le_antisymm (by simpa [b2q, hd] using (hL i hi).2) (hB.2.1 i hi).1

end FeasLemmas

/-- C1.  For every solved daily window and every slot `i`, the SoC variables
satisfy the transition equation
`soc[i+1] = soc[i] + charge[i]*halfPower - discharge[i]*halfPower -
is_eprx3[i]*halfPower`; consequently an `eprx3` slot always removes the full
half-power amount and an `eprx1` or `idle` slot leaves the SoC unchanged. -/
theorem C1_soc_transition (p : BatteryParams) (w : List PriceRow) (c : ℚ)
    (v : DayVars) (hF : Feasible p w c v) (i : ℕ) (hi : i < w.length) :
    v.battery_soc (i + 1) =
        v.battery_soc i + v.charge i * (p.battery_power_kW * (1/2))
          - v.discharge i * (p.battery_power_kW * (1/2))
          - b2q (v.is_eprx3 i) * (p.battery_power_kW * (1/2)) ∧
      (chooseAction v i = .eprx3 →
        v.battery_soc (i + 1) = v.battery_soc i - p.battery_power_kW * (1/2)) ∧
      (chooseAction v i = .eprx1 ∨ chooseAction v i = .idle →
        v.battery_soc (i + 1) = v.battery_soc i) := by
  obtain ⟨hB, hEx, hL, _, _, hT, _, _, _, _, _, _⟩ := hF
  have htrans := hT i hi
  unfold BatteryParams.half_power_kWh at htrans
  refine ⟨htrans, ?_, ?_⟩
  · intro ha
    obtain ⟨hib, hc, hd, he⟩ := action_eprx3_vars ha
    rw [htrans, charge_eq_zero hB hL hi hc, discharge_eq_zero hB hL hi hd, he]
    norm_num [b2q]
  · intro ha
    have hzero : v.is_charge i = false ∧ v.is_discharge i = false ∧
        v.is_eprx3 i = false := by
      rcases ha with ha | ha
      · exact in_block_excl hEx hi (action_eprx1_vars ha)
      · obtain ⟨_, hc, hd, he⟩ := action_idle_vars ha
        exact ⟨hc, hd, he⟩
    obtain ⟨hc, hd, he⟩ := hzero
    rw [htrans, charge_eq_zero hB hL hi hc, discharge_eq_zero hB hL hi hd, he]
    simp [b2q]

/-- A concrete 4-slot solved window used as a witness instance: slots 0-1 form
an EPRX1 block (M = 2), slot 2 is an EPRX3 dispatch, slot 3 is idle. -/
def exP : BatteryParams :=
  { battery_power_kW := 10
    battery_capacity_kWh := 100
    battery_loss_rate := 1/10
    daily_cycle_limit := 0
    eprx1_block_size := 2
    eprx1_block_cooldown := 1
    max_daily_eprx1_slots := 0
    wheeling_loss_rate := 1/20 }

/-- Price rows of the witness window. -/
def exW : List PriceRow :=
  [ { date := (2023, 4, 1), slot := 1, JEPX_prediction := some 10,
      JEPX_actual := some 12, EPRX1_prediction := some 20,
      EPRX1_actual := some 20, EPRX3_prediction := none,
      EPRX3_actual := none, imbalance := some 11 },
    { date := (2023, 4, 1), slot := 2, JEPX_prediction := some 10,
      JEPX_actual := some 12, EPRX1_prediction := some 20,
      EPRX1_actual := some 20, EPRX3_prediction := none,
      EPRX3_actual := none, imbalance := some 11 },
    { date := (2023, 4, 1), slot := 3, JEPX_prediction := some 10,
      JEPX_actual := some 12, EPRX1_prediction := some 0,
      EPRX1_actual := some 0, EPRX3_prediction := some 5,
      EPRX3_actual := some 5, imbalance := some 11 },
    { date := (2023, 4, 1), slot := 4, JEPX_prediction := some 10,
      JEPX_actual := some 12, EPRX1_prediction := some 0,
      EPRX1_actual := some 0, EPRX3_prediction := none,
      EPRX3_actual := none, imbalance := some 11 } ]

/-- A feasible assignment of MILP variables for `exW` with opening SoC 50. -/
def exV : DayVars :=
  { charge := fun _ => 0
    discharge := fun _ => 0
    block_start := fun i => decide (i = 0)
    is_in_block := fun i => decide (i ≤ 1)
    is_charge := fun _ => false
    is_discharge := fun _ => false
    is_eprx3 := fun i => decide (i = 2)
    is_idle := fun i => decide (i = 3)
    battery_soc := fun i => if i ≤ 2 then 50 else 45 }

/-- The `possible_starts` lists of the witness window, precomputed. -/
lemma exPS : possibleStarts 2 0 = [0] ∧ possibleStarts 2 1 = [0, 1] ∧
    possibleStarts 2 2 = [1, 2] ∧ possibleStarts 2 3 = [2, 3] := by decide

/-- The witness assignment satisfies every posted constraint. -/
lemma exV_feasible : Feasible exP exW 50 exV := by
  obtain ⟨hp0, hp1, hp2, hp3⟩ := exPS
  refine ⟨⟨?_, ?_, ?_⟩, ?_, ?_, ?_, ?_, ?_, ?_, ⟨?_, ?_⟩, ?_, ?_, ?_, ?_⟩
  · intro i hi; norm_num [exV, exP]
  · intro i hi; norm_num [exV, exP]
  · intro i hi
    simp only [exW, List.length] at hi
    interval_cases i <;> norm_num [exV, exP]
  · intro i hi
    simp only [exW, List.length] at hi
    interval_cases i <;> norm_num [exV, b2q]
  · intro i hi; norm_num [exV, b2q]
  · intro i hi
    simp only [exW, List.length] at hi
    simp only [exP] at *
    interval_cases i <;>
      simp [exV, b2q, hp0, hp1, hp2, hp3]
  · intro i hi hmz
    simp only [exW, List.length] at hi
    interval_cases i <;> simp_all [exW, getRow, missingOrZero, exV]
  · intro i hi
    simp only [exW, List.length] at hi
    interval_cases i <;>
      norm_num [exV, exP, b2q, BatteryParams.half_power_kWh]
  · norm_num [exV]
  · intro i hi j hj1 hj2
    by_cases h0 : i = 0
    · subst h0
      have hj0 : j ≠ 0 := by omega
      simp [exV, hj0, b2q]
    · simp [exV, h0, b2q]
      by_cases hj0 : j = 0 <;> simp [hj0, b2q]
  · intro i hi hlate
    rw [show exW.length = 4 from rfl] at hi hlate
    simp only [exP] at hlate
    have h0 : i ≠ 0 := by omega
    simp [exV, h0]
  · intro h; simp [exP] at h
  · intro i hi s hs1 hs2 hmz
    rw [show exW.length = 4 from rfl] at hi hs2
    simp only [exP] at hs2
    interval_cases i <;> norm_num at hs2 <;> interval_cases s <;>
      simp_all [exW, getRow, missingOrZero, exV]
  · intro i hi
    simp only [exW, List.length] at hi
    interval_cases i <;> norm_num [exV, exP, b2q]
  · intro h; simp [exP] at h

/-- Witness for C1: the transition theorem applied to the concrete solved
window at slot 2 (the EPRX3 slot). -/
theorem C1_soc_transition_witness :
    Feasible exP exW 50 exV ∧ 2 < exW.length ∧
      (exV.battery_soc 3 =
          exV.battery_soc 2 + exV.charge 2 * (exP.battery_power_kW * (1/2))
            - exV.discharge 2 * (exP.battery_power_kW * (1/2))
            - b2q (exV.is_eprx3 2) * (exP.battery_power_kW * (1/2)) ∧
        (chooseAction exV 2 = .eprx3 →
          exV.battery_soc 3 = exV.battery_soc 2 - exP.battery_power_kW * (1/2)) ∧
        (chooseAction exV 2 = .eprx1 ∨ chooseAction exV 2 = .idle →
          exV.battery_soc 3 = exV.battery_soc 2)) :=
  ⟨exV_feasible, by norm_num [exW],
    C1_soc_transition exP exW 50 exV exV_feasible 2 (by norm_num [exW])⟩

/-- C2 (amended).  Every SlotDecision produced by the optimizer has at most
one nonzero field among `charge_kWh`, `discharge_kWh`, `EPRX3_kWh` (at least
two of the three are zero), and a nonzero field always matches the recorded
action.  The original claim's "exactly one is nonzero" fails on `idle` and
`eprx1` slots, where all three are zero. -/
theorem C2_energy_consistency (p : BatteryParams) (w : List PriceRow)
    (v : DayVars) (d : SlotDecision) (hd : d ∈ dayDecisions p w v) :
    (d.charge_kWh ≠ 0 → d.action = .charge) ∧
      (d.discharge_kWh ≠ 0 → d.action = .discharge) ∧
      (d.EPRX3_kWh ≠ 0 → d.action = .eprx3) ∧
      ((d.charge_kWh = 0 ∧ d.discharge_kWh = 0) ∨
        (d.charge_kWh = 0 ∧ d.EPRX3_kWh = 0) ∨
        (d.discharge_kWh = 0 ∧ d.EPRX3_kWh = 0)) := by
  obtain ⟨i, hi, rfl⟩ := List.mem_map.mp hd
  rcases hact : chooseAction v i with _ | _ | _ | _ | _ <;>
    simp [extractSlot, hact]

/-- Witness for C2: the amended theorem applied to the first decision of the
concrete solved window. -/
theorem C2_energy_consistency_witness :
    extractSlot exP (getRow exW 0) exV 0 ∈ dayDecisions exP exW exV ∧
      ((extractSlot exP (getRow exW 0) exV 0).charge_kWh ≠ 0 →
        (extractSlot exP (getRow exW 0) exV 0).action = .charge) ∧
      ((extractSlot exP (getRow exW 0) exV 0).discharge_kWh ≠ 0 →
        (extractSlot exP (getRow exW 0) exV 0).action = .discharge) ∧
      ((extractSlot exP (getRow exW 0) exV 0).EPRX3_kWh ≠ 0 →
        (extractSlot exP (getRow exW 0) exV 0).action = .eprx3) ∧
      (((extractSlot exP (getRow exW 0) exV 0).charge_kWh = 0 ∧
          (extractSlot exP (getRow exW 0) exV 0).discharge_kWh = 0) ∨
        ((extractSlot exP (getRow exW 0) exV 0).charge_kWh = 0 ∧
          (extractSlot exP (getRow exW 0) exV 0).EPRX3_kWh = 0) ∨
        ((extractSlot exP (getRow exW 0) exV 0).discharge_kWh = 0 ∧
          (extractSlot exP (getRow exW 0) exV 0).EPRX3_kWh = 0)) := by
  have hmem : extractSlot exP (getRow exW 0) exV 0 ∈ dayDecisions exP exW exV :=
    List.mem_map.mpr ⟨0, List.mem_range.mpr (by norm_num [exW]), rfl⟩
  exact ⟨hmem, C2_energy_consistency exP exW exV _ hmem⟩

/-- Counterexample for C2 as stated: slot 3 of the concrete solved window is
`idle`, and its produced decision has all three energy fields equal to zero,
so it is not the case that exactly one of them is nonzero. -/
theorem C2_counterexample :
    Feasible exP exW 50 exV ∧
      extractSlot exP (getRow exW 3) exV 3 ∈ dayDecisions exP exW exV ∧
      ¬(((extractSlot exP (getRow exW 3) exV 3).charge_kWh ≠ 0 ∧
            (extractSlot exP (getRow exW 3) exV 3).discharge_kWh = 0 ∧
            (extractSlot exP (getRow exW 3) exV 3).EPRX3_kWh = 0) ∨
        ((extractSlot exP (getRow exW 3) exV 3).charge_kWh = 0 ∧
            (extractSlot exP (getRow exW 3) exV 3).discharge_kWh ≠ 0 ∧
            (extractSlot exP (getRow exW 3) exV 3).EPRX3_kWh = 0) ∨
        ((extractSlot exP (getRow exW 3) exV 3).charge_kWh = 0 ∧
            (extractSlot exP (getRow exW 3) exV 3).discharge_kWh = 0 ∧
            (extractSlot exP (getRow exW 3) exV 3).EPRX3_kWh ≠ 0)) := by
  refine ⟨exV_feasible, List.mem_map.mpr ⟨3, List.mem_range.mpr (by norm_num [exW]), rfl⟩, ?_⟩
  have hact : chooseAction exV 3 = .idle := rfl
  simp [extractSlot, hact]

/-- Banker's rounding moves a value by at most one half. -/
lemma roundHalfEven_close (q : ℚ) : |(roundHalfEven q : ℚ) - q| ≤ 1/2 := by
  have h1 : (⌊q⌋ : ℚ) ≤ q := Int.floor_le q
  have h2 : q < (⌊q⌋ : ℚ) + 1 := Int.lt_floor_add_one q
  unfold roundHalfEven
  split_ifs with hlt hgt hev <;> rw [abs_le] <;> push_cast <;>
    constructor <;> linarith

/-- `round(x, 2)` moves a value by at most `1/200`. -/
lemma round2_close (x : ℚ) : |round2 x - x| ≤ 1/200 := by
  have h := abs_le.mp (roundHalfEven_close (x * 100))
  unfold round2
  rw [show (roundHalfEven (x * 100) : ℚ) / 100 - x =
      ((roundHalfEven (x * 100) : ℚ) - x * 100) / 100 by ring, abs_div,
    show |(100:ℚ)| = 100 from by norm_num,
    div_le_iff₀ (by norm_num : (0:ℚ) < 100), abs_le]
  constructor <;> linarith [h.1, h.2]

/-- C4.  For every produced slot with action `eprx1`, the end-of-slot SoC
`soc[i+1]` lies exactly in the band `[0.4*capacity, 0.6*capacity]` (the big-M
band constraint on the boundary `soc[i]` transfers because an in-block slot
leaves the SoC unchanged), and the reported `battery_level_kWh`, which is
`soc[i+1]` rounded to 2 decimals, lies within `1/200` of the band. -/
theorem C4_eprx1_soc_band (p : BatteryParams) (w : List PriceRow) (c : ℚ)
    (v : DayVars) (hF : Feasible p w c v) (i : ℕ) (hi : i < w.length)
    (ha : chooseAction v i = .eprx1) :
    (2/5 : ℚ) * p.battery_capacity_kWh ≤ v.battery_soc (i + 1) ∧
      v.battery_soc (i + 1) ≤ (3/5 : ℚ) * p.battery_capacity_kWh ∧
      (2/5 : ℚ) * p.battery_capacity_kWh - 1/200 ≤
        (extractSlot p (getRow w i) v i).battery_level_kWh ∧
      (extractSlot p (getRow w i) v i).battery_level_kWh ≤
        (3/5 : ℚ) * p.battery_capacity_kWh + 1/200 := by
  obtain ⟨hB, hEx, hL, _, _, hT, _, _, _, _, hSB, _⟩ := hF
  have hblk : v.is_in_block i = true := action_eprx1_vars ha
  obtain ⟨hc, hd, he⟩ := in_block_excl hEx hi hblk
  have hstep : v.battery_soc (i + 1) = v.battery_soc i := by
    rw [hT i hi, charge_eq_zero hB hL hi hc, discharge_eq_zero hB hL hi hd, he]
    norm_num [b2q]
  have hband := hSB i hi
  rw [hblk] at hband
  simp only [b2q, if_pos] at hband
  have hlo : (2/5 : ℚ) * p.battery_capacity_kWh ≤ v.battery_soc (i + 1) := by
    rw [hstep]; linarith [hband.1]
  have hhi : v.battery_soc (i + 1) ≤ (3/5 : ℚ) * p.battery_capacity_kWh := by
    rw [hstep]; linarith [hband.2]
  have hlevel : (extractSlot p (getRow w i) v i).battery_level_kWh =
      round2 (v.battery_soc (i + 1)) := rfl
  have hcl := abs_le.mp (round2_close (v.battery_soc (i + 1)))
  exact ⟨hlo, hhi, by rw [hlevel]; linarith [hcl.1], by rw [hlevel]; linarith [hcl.2]⟩

/-- Witness for C4: the band theorem applied to the concrete solved window at
slot 0 (an EPRX1 slot). -/
theorem C4_eprx1_soc_band_witness :
    Feasible exP exW 50 exV ∧ 0 < exW.length ∧ chooseAction exV 0 = .eprx1 ∧
      ((2/5 : ℚ) * exP.battery_capacity_kWh ≤ exV.battery_soc 1 ∧
        exV.battery_soc 1 ≤ (3/5 : ℚ) * exP.battery_capacity_kWh ∧
        (2/5 : ℚ) * exP.battery_capacity_kWh - 1/200 ≤
          (extractSlot exP (getRow exW 0) exV 0).battery_level_kWh ∧
        (extractSlot exP (getRow exW 0) exV 0).battery_level_kWh ≤
          (3/5 : ℚ) * exP.battery_capacity_kWh + 1/200) :=
  ⟨exV_feasible, by norm_num [exW], rfl,
    C4_eprx1_soc_band exP exW 50 exV exV_feasible 0 (by norm_num [exW]) rfl⟩

section BlockStructure

variable {p : BatteryParams} {w : List PriceRow} {v : DayVars} {M C n : ℕ}

/-- Membership in `possible_starts`: for `M ≥ 1` it is exactly the starts
whose `M`-slot span covers `i`. -/
lemma mem_possibleStarts {i x : ℕ} :
    x ∈ possibleStarts M i ↔ x ≤ i ∧ i < x + M := by
  unfold possibleStarts
  simp only [List.mem_filter, List.mem_range, Bool.and_eq_true, decide_eq_true_eq]
  omega

/-- A list of indicator values sums to zero when all indicators are off. -/
lemma sum_b2q_eq_zero {f : ℕ → Bool} {l : List ℕ}
    (h : ∀ x ∈ l, f x = false) : (l.map fun x => b2q (f x)).sum = 0 := by
  induction l with
  | nil => simp
  | cons a t ih =>
      simp only [List.map_cons, List.sum_cons]
      rw [h a (by simp), ih fun x hx => h x (by simp [hx])]
      simp [b2q]

/-- A nonzero indicator sum exhibits an indicator that is on. -/
lemma exists_true_of_sum_ne_zero {f : ℕ → Bool} {l : List ℕ}
    (h : (l.map fun x => b2q (f x)).sum ≠ 0) : ∃ x ∈ l, f x = true := by
  by_contra hall
  push_neg at hall
  exact h (sum_b2q_eq_zero fun x hx => by
    have := hall x hx
    exact Bool.eq_false_iff.mpr this)

/-- An indicator that is on bounds the indicator sum below by one. -/
lemma one_le_sum_of_mem {f : ℕ → Bool} {l : List ℕ} {x : ℕ}
    (hx : x ∈ l) (hfx : f x = true) :
    1 ≤ (l.map fun y => b2q (f y)).sum := by
  have hmem : b2q (f x) ∈ l.map fun y => b2q (f y) := List.mem_map_of_mem _ hx
  have hone : b2q (f x) = 1 := by simp [b2q, hfx]
  have := List.single_le_sum (l := l.map fun y => b2q (f y))
    (fun q hq => by
      obtain ⟨z, _, rfl⟩ := List.mem_map.mp hq
      unfold b2q; split <;> norm_num) _ hmem
  rw [hone] at this
  exact this

/-- Characterization of EPRX1 block membership from constraint (A): slot `i`
is in a block exactly when some `block_start` whose span covers `i` is set. -/
lemma in_block_iff (hBC : BlockContiguity M n v) {i : ℕ}
    (hi : i < n) :
    v.is_in_block i = true ↔
      ∃ x, x ≤ i ∧ i < x + M ∧ v.block_start x = true := by
  have heq := hBC i hi
  constructor
  · intro hb
    rw [hb] at heq
    have hsum : ((possibleStarts M i).map fun x => b2q (v.block_start x)).sum ≠ 0 := by
      rw [← heq]; simp [b2q]
    obtain ⟨x, hx, hbx⟩ := exists_true_of_sum_ne_zero hsum
    obtain ⟨hx1, hx2⟩ := mem_possibleStarts.mp hx
    exact ⟨x, hx1, hx2, hbx⟩
  · rintro ⟨x, hx1, hx2, hbx⟩
    have hx : x ∈ possibleStarts M i := mem_possibleStarts.mpr ⟨hx1, hx2⟩
    have hone := one_le_sum_of_mem hx hbx
    cases hb : v.is_in_block i with
    | true => rfl
    | false =>
        rw [hb] at heq
        rw [show b2q false = 0 from rfl] at heq
        rw [← heq] at hone
        norm_num at hone

/-- The pairwise cooldown constraints separate any two block starts by at
least `M + C` slots. -/
lemma starts_separated (hCD : Cooldown M C n v) {i j : ℕ} (hi : i < n)
    (hj : j < n) (hij : i < j) (hclose : j < i + M + C)
    (hbi : v.block_start i = true) (hbj : v.block_start j = true) : False := by
  have h := hCD.1 i hi j (by omega) (lt_min hj hclose)
  rw [hbi, hbj] at h
  norm_num [b2q] at h

/-- No block may start with fewer than `M` slots remaining in the window. -/
lemma no_late_start (hCD : Cooldown M C n v) {i : ℕ} (hi : i < n)
    (h : n < i + M) : v.block_start i = false :=
  hCD.2 i hi (by omega)

end BlockStructure

/-- C3 (amended).  In a solved window, provided the cooldown `C` is at least
one: every maximal run of consecutive `eprx1` slots starting at `i` extends
for exactly the block size `M` (all of `i..i+M-1` lie inside the window and
carry action `eprx1`), and the following `C` slots, as far as they exist, are
not `eprx1` — so maximal runs have length exactly `M` and are separated by at
least `C` non-eprx1 slots, with no truncated run at the end of the window.
The original claim also asserted this for `C = 0`, where two blocks may abut
(see the counterexample), so runs are only guaranteed to be unions of
`M`-blocks there. -/
theorem C3_eprx1_block_structure (p : BatteryParams) (w : List PriceRow)
    (c : ℚ) (v : DayVars) (hF : Feasible p w c v)
    (_hM : 1 ≤ p.eprx1_block_size) (_hC : 1 ≤ p.eprx1_block_cooldown)
    (i : ℕ) (hi : i < w.length) (hstart : chooseAction v i = .eprx1)
    (hprev : i = 0 ∨ chooseAction v (i - 1) ≠ .eprx1) :
    (∀ k, k < p.eprx1_block_size →
      i + k < w.length ∧ chooseAction v (i + k) = .eprx1) ∧
    (∀ j, i + p.eprx1_block_size ≤ j →
      j < i + p.eprx1_block_size + p.eprx1_block_cooldown → j < w.length →
      chooseAction v j ≠ .eprx1) := by
  obtain ⟨_, _, _, hBC, _, _, _, hCD, _, _, _, _⟩ := hF
  set M := p.eprx1_block_size with hMdef
  set C := p.eprx1_block_cooldown with hCdef
  set n := w.length with hndef
  -- the block indicator coincides with the read-back action being eprx1
  have hact_iff : ∀ j, v.is_in_block j = true ↔ chooseAction v j = .eprx1 := by
    intro j
    constructor
    · intro hb; unfold chooseAction; rw [hb]; rfl
    · exact action_eprx1_vars
  have hIn : v.is_in_block i = true := (hact_iff i).mpr hstart
  -- the covering start can only be i itself, else slot i-1 would be in-block
  obtain ⟨x, hx1, hx2, hbx⟩ := (in_block_iff hBC hi).mp hIn
  have hxi : x = i := by
    by_contra hne
    have hxlt : x < i := lt_of_le_of_ne hx1 hne
    have hi1 : i - 1 < n := by omega
    have hprev_in : v.is_in_block (i - 1) = true :=
      (in_block_iff hBC hi1).mpr ⟨x, by omega, by omega, hbx⟩
    rcases hprev with h0 | hne1
    · omega
    · exact hne1 ((hact_iff (i - 1)).mp hprev_in)
  subst hxi
  -- a start cannot be posted with fewer than M slots remaining
  have hfit : x + M ≤ n := by
    by_contra hlate
    rw [no_late_start hCD hi (by omega)] at hbx
    exact Bool.false_ne_true hbx
  refine ⟨?_, ?_⟩
  · intro k hk
    have hkin : x + k < n := by omega
    exact ⟨hkin, (hact_iff (x + k)).mp
      ((in_block_iff hBC hkin).mpr ⟨x, by omega, by omega, hbx⟩)⟩
  · intro j hj1 hj2 hjn hact
    obtain ⟨y, hy1, hy2, hby⟩ :=
      (in_block_iff hBC hjn).mp ((hact_iff j).mpr hact)
    exact starts_separated hCD hi (by omega : y < n) (by omega) (by omega)
      hbx hby

/-- Witness for C3: the amended theorem applied to the concrete solved window
at the maximal run starting at slot 0. -/
theorem C3_eprx1_block_structure_witness :
    Feasible exP exW 50 exV ∧ 1 ≤ exP.eprx1_block_size ∧
      1 ≤ exP.eprx1_block_cooldown ∧ 0 < exW.length ∧
      chooseAction exV 0 = .eprx1 ∧
      ((∀ k, k < exP.eprx1_block_size →
          0 + k < exW.length ∧ chooseAction exV (0 + k) = .eprx1) ∧
        (∀ j, 0 + exP.eprx1_block_size ≤ j →
          j < 0 + exP.eprx1_block_size + exP.eprx1_block_cooldown →
          j < exW.length → chooseAction exV j ≠ .eprx1)) :=
  ⟨exV_feasible, by norm_num [exP], by norm_num [exP], by norm_num [exW], rfl,
    C3_eprx1_block_structure exP exW 50 exV exV_feasible
      (by norm_num [exP]) (by norm_num [exP]) 0 (by norm_num [exW]) rfl
      (Or.inl rfl)⟩

/-- The per-slot objective contribution (lines 211-233 of
`src/optimization.py`): charge cost grossed up by wheeling loss, discharge
revenue net of battery loss, EPRX1 capacity revenue, and the
tax-multiplied EPRX3 revenue; `NaN` prediction prices default to zero. -/
def slotObjective (p : BatteryParams) (row : PriceRow) (v : DayVars)
    (i : ℕ) : ℚ :=
  let jpred := orZero row.JEPX_prediction
  let e1pred := orZero row.EPRX1_prediction
  let e3pred := orZero row.EPRX3_prediction
  let imb := orZero row.imbalance
  let cost_c := jpred * (v.charge i * p.half_power_kWh / (1 - p.wheeling_loss_rate))
  let rev_d := jpred * (v.discharge i * p.half_power_kWh * (1 - p.battery_loss_rate))
  let rev_e1 := e1pred * p.battery_power_kW * b2q (v.is_in_block i)
  let rev_e3 := TAX * b2q (v.is_eprx3 i) *
    (p.battery_power_kW * e3pred +
      p.half_power_kWh * (1 - p.battery_loss_rate) * imb)
  let slot_profit := -cost_c + rev_d + rev_e1 + rev_e3
  slot_profit

/-- The maximized objective of one daily window (line 234). -/
def objective (p : BatteryParams) (w : List PriceRow) (v : DayVars) : ℚ :=
  ((List.range w.length).map fun i => slotObjective p (getRow w i) v i).sum

/-- Parameters with block size `M = 1` and cooldown `C = 0`, used to refute
the run-length claim at cooldown zero. -/
def exP0 : BatteryParams :=
  { battery_power_kW := 10
    battery_capacity_kWh := 100
    battery_loss_rate := 1/10
    daily_cycle_limit := 0
    eprx1_block_size := 1
    eprx1_block_cooldown := 0
    max_daily_eprx1_slots := 0
    wheeling_loss_rate := 1/20 }

/-- A two-slot window whose only revenue opportunity is the EPRX1 capacity
payment (all other prediction prices are missing). -/
def exW0 : List PriceRow :=
  [ { date := (2023, 4, 1), slot := 1, JEPX_prediction := none,
      JEPX_actual := none, EPRX1_prediction := some 10,
      EPRX1_actual := some 10, EPRX3_prediction := none,
      EPRX3_actual := none, imbalance := none },
    { date := (2023, 4, 1), slot := 2, JEPX_prediction := none,
      JEPX_actual := none, EPRX1_prediction := some 10,
      EPRX1_actual := some 10, EPRX3_prediction := none,
      EPRX3_actual := none, imbalance := none } ]

/-- The assignment with an EPRX1 block starting at both slots, legal because
with `C = 0` the pairwise cooldown constraints `block_start[i]+block_start[j]
<= 1` only range over `j in [i+1, i+M)`, which is empty for `M = 1`. -/
def exV0 : DayVars :=
  { charge := fun _ => 0
    discharge := fun _ => 0
    block_start := fun i => decide (i ≤ 1)
    is_in_block := fun i => decide (i ≤ 1)
    is_charge := fun _ => false
    is_discharge := fun _ => false
    is_eprx3 := fun _ => false
    is_idle := fun _ => false
    battery_soc := fun _ => 50 }

/-- The abutting-blocks assignment satisfies every posted constraint. -/
lemma exV0_feasible : Feasible exP0 exW0 50 exV0 := by
  have hp0 : possibleStarts 1 0 = [0] := by decide
  have hp1 : possibleStarts 1 1 = [1] := by decide
  refine ⟨⟨?_, ?_, ?_⟩, ?_, ?_, ?_, ?_, ?_, ?_, ⟨?_, ?_⟩, ?_, ?_, ?_, ?_⟩
  · intro i hi; norm_num [exV0]
  · intro i hi; norm_num [exV0]
  · intro i hi; norm_num [exV0, exP0]
  · intro i hi
    rw [show exW0.length = 2 from rfl] at hi
    interval_cases i <;> norm_num [exV0, b2q]
  · intro i hi; norm_num [exV0, b2q]
  · intro i hi
    rw [show exW0.length = 2 from rfl] at hi
    simp only [exP0]
    interval_cases i <;> simp [exV0, b2q, hp0, hp1]
  · intro i hi hmz; norm_num [exV0]
  · intro i hi
    rw [show exW0.length = 2 from rfl] at hi
    interval_cases i <;>
      norm_num [exV0, exP0, b2q, BatteryParams.half_power_kWh]
  · norm_num [exV0]
  · intro i hi j hj1 hj2
    rw [show exW0.length = 2 from rfl] at hi hj2
    simp only [exP0] at hj2
    omega
  · intro i hi hlate
    rw [show exW0.length = 2 from rfl] at hi hlate
    simp only [exP0] at hlate
    omega
  · intro h; simp [exP0] at h
  · intro i hi s hs1 hs2 hmz
    rw [show exW0.length = 2 from rfl] at hi hs2
    simp only [exP0] at hs2
    have hs : s = 0 ∨ s = 1 := by omega
    rcases hs with rfl | rfl <;>
      simp [getRow, exW0, missingOrZero] at hmz
  · intro i hi
    rw [show exW0.length = 2 from rfl] at hi
    interval_cases i <;> norm_num [exV0, exP0, b2q]
  · intro h; simp [exP0] at h

/-- Indicator values are nonnegative. -/
lemma b2q_nonneg (b : Bool) : 0 ≤ b2q b := by unfold b2q; split <;> norm_num

/-- Indicator values are at most one. -/
lemma b2q_le_one (b : Bool) : b2q b ≤ 1 := by unfold b2q; split <;> norm_num

/-- On a row whose only valid prediction price is `EPRX1_prediction = 10`,
the slot objective under `exP0` reduces to the EPRX1 capacity payment. -/
lemma slotObjective_e1only (u : DayVars) (i : ℕ) (r : PriceRow)
    (h1 : r.JEPX_prediction = none) (h2 : r.EPRX3_prediction = none)
    (h3 : r.imbalance = none) (h4 : r.EPRX1_prediction = some 10) :
    slotObjective exP0 r u i = 100 * b2q (u.is_in_block i) := by
  simp only [slotObjective, h1, h2, h3, h4, orZero, Option.getD_none,
    Option.getD_some, exP0, TAX, BatteryParams.half_power_kWh]
  ring

/-- The window objective of `exW0` counts only EPRX1 capacity payments. -/
lemma objective_exW0 (u : DayVars) :
    objective exP0 exW0 u =
      100 * b2q (u.is_in_block 0) + 100 * b2q (u.is_in_block 1) := by
  unfold objective
  rw [show exW0.length = 2 from rfl, show List.range 2 = [0, 1] from rfl]
  simp only [List.map_cons, List.map_nil, List.sum_cons, List.sum_nil]
  rw [slotObjective_e1only u 0 (getRow exW0 0) rfl rfl rfl rfl,
    slotObjective_e1only u 1 (getRow exW0 1) rfl rfl rfl rfl]
  ring

/-- No feasible assignment for the `C = 0` window beats the abutting-blocks
assignment: the only nonzero objective term is the EPRX1 capacity payment,
which `exV0` collects in both slots. -/
lemma exV0_optimal (v : DayVars) (hF : Feasible exP0 exW0 50 v) :
    objective exP0 exW0 v ≤ objective exP0 exW0 exV0 := by
  rw [objective_exW0, objective_exW0]
  have h0 : b2q (exV0.is_in_block 0) = 1 := rfl
  have h1 : b2q (exV0.is_in_block 1) = 1 := rfl
  rw [h0, h1]
  linarith [b2q_le_one (v.is_in_block 0), b2q_le_one (v.is_in_block 1)]

/-- Counterexample for C3 as stated: with block size `M = 1` and cooldown
`C = 0`, the solved two-slot window `exW0`/`exV0` (feasible, and by
`exV0_optimal` also objective-optimal, so it is what the solver returns) has
both consecutive slots carrying action `eprx1`: the maximal run containing
slot 0 has length 2, not the block size 1, although the window (length 2) is
not shorter than the block size. -/
theorem C3_counterexample :
    Feasible exP0 exW0 50 exV0 ∧ exP0.eprx1_block_size = 1 ∧
      exP0.eprx1_block_cooldown = 0 ∧ exW0.length = 2 ∧
      chooseAction exV0 0 = .eprx1 ∧ chooseAction exV0 1 = .eprx1 ∧
      objective exP0 exW0 exV0 = 200 := by
  refine ⟨exV0_feasible, rfl, rfl, rfl, rfl, rfl, ?_⟩
  rw [objective_exW0]
  rw [show b2q (exV0.is_in_block 0) = 1 from rfl,
    show b2q (exV0.is_in_block 1) = 1 from rfl]
  norm_num

/-- The outcome of one external MILP solve: whether the backend reported the
status `Optimal` (`pulp.LpStatus[prob.status] == "Optimal"`, line 238 of
`src/optimization.py`), and the variable assignment it returned.  When
`optimal` is true the assignment satisfies `Feasible` for the posted
window. -/
structure SolveResult where
  optimal : Bool
  vars : DayVars

/-- `day_charge_kWh = sum(value(charge[i])) * half_power_kWh` (line 331). -/
def dayChargeKWh (p : BatteryParams) (w : List PriceRow) (v : DayVars) : ℚ :=
  ((List.range w.length).map fun i => v.charge i).sum * p.half_power_kWh

/-- The daily loop of `run_optimization` (lines 77-336): windows are solved in
order with the carried-over SoC; a window whose solve does not report
`Optimal` is skipped with `continue`, leaving `carry_over_soc` and
`total_cycles_used` unchanged; an empty window breaks the loop; after a
solved window its transactions are appended, the carry-over SoC becomes
`battery_soc[day_slots]`, and the loop breaks once the yearly cycle limit
(when positive) is exceeded.  The external solver is a parameter mapping the
day index and opening SoC to its result. -/
def runDays (p : BatteryParams) (yearly_cycle_limit : ℚ)
    (solver : ℕ → ℚ → SolveResult) :
    List (List PriceRow) → ℕ → ℚ → ℚ → List SlotDecision
  | [], _, _, _ => []
  | w :: ws, day_idx, carry_over_soc, total_cycles_used =>
    if w.length = 0 then []
    else
      let res := solver day_idx carry_over_soc
      if res.optimal = false then
        runDays p yearly_cycle_limit solver ws (day_idx + 1) carry_over_soc
          total_cycles_used
      else
        let day_transactions := dayDecisions p w res.vars
        let final_soc := res.vars.battery_soc w.length
        let day_cycle_count := dayChargeKWh p w res.vars / p.battery_capacity_kWh
        let new_cycles := total_cycles_used + day_cycle_count
        if 0 < yearly_cycle_limit ∧ yearly_cycle_limit < new_cycles then
          day_transactions
        else
          day_transactions ++
            runDays p yearly_cycle_limit solver ws (day_idx + 1) final_soc
              new_cycles

/-- C5 (amended).  When the MILP backend reports a non-optimal status for a
window, the optimizer raises no error and does not abort: that window is
skipped (`continue`), producing no SlotDecision and leaving the carried-over
SoC and cycle counter unchanged, and the run proceeds with the remaining
windows exactly as if the failing window were absent — so decisions of all
other windows, earlier and later, are preserved. -/
theorem C5_nonoptimal_skips (p : BatteryParams) (yl : ℚ)
    (solver : ℕ → ℚ → SolveResult) (w : List PriceRow)
    (ws : List (List PriceRow)) (k : ℕ) (c cyc : ℚ)
    (hw : w.length ≠ 0) (hfail : (solver k c).optimal = false) :
    runDays p yl solver (w :: ws) k c cyc =
      runDays p yl solver ws (k + 1) c cyc := by
  unfold runDays
  rw [if_neg hw, if_pos hfail]
  cases ws <;> rfl

/-- A solver stub for the witness and counterexample of C5: the backend fails
on day 0 and succeeds with the assignment `exV0` afterwards. -/
def exSolver5 : ℕ → ℚ → SolveResult :=
  fun k _ => if k = 0 then ⟨false, exV0⟩ else ⟨true, exV0⟩

/-- Witness for C5: the skip equation applied to a concrete failing run. -/
theorem C5_nonoptimal_skips_witness :
    exW0.length ≠ 0 ∧ (exSolver5 0 0).optimal = false ∧
      runDays exP0 0 exSolver5 [exW0, exW0] 0 0 0 =
        runDays exP0 0 exSolver5 [exW0] 1 0 0 :=
  ⟨by norm_num [exW0], rfl,
    C5_nonoptimal_skips exP0 0 exSolver5 exW0 [exW0] 0 0 0
      (by norm_num [exW0]) rfl⟩

/-- Counterexample for C5 as stated: with the backend failing on window 0 and
succeeding on window 1, the streamlit core raises nothing and the run is not
aborted — it produces the (nonempty) decisions of the later window, while the
claim required the run to abort with a `SolverError` once a window fails. -/
theorem C5_counterexample :
    (exSolver5 0 0).optimal = false ∧
      runDays exP0 0 exSolver5 [exW0, exW0] 0 0 0 =
        dayDecisions exP0 exW0 exV0 ∧
      dayDecisions exP0 exW0 exV0 ≠ [] := by
  refine ⟨rfl, ?_, by simp [dayDecisions, exW0]⟩
  simp [runDays, exSolver5, show exW0 ≠ [] from by simp [exW0]]

/-- Parameters specific to the V2 engine (`optimization_engine_v2.py`): the
battery parameters plus the EPRX3 activation probability
(`eprx3_activation_rate`, in percent) and the V1 price percentage (the
engine's `v1_price_ratio` parameter, in percent). -/
structure ParamsV2 where
  toBatteryParams : BatteryParams
  eprx3_activation_rate : ℚ
  v1_price_pct : ℚ

/-- Post-solve action read-back of the desktop engines (lines 566-589 of
`optimization_engine_v2.py`): priority eprx1 > eprx3 > charge > discharge >
idle, where charge/discharge additionally require the continuous value to
exceed `THRESHOLD = 1e-6`. -/
def chooseActionV2 (v : DayVars) (i : ℕ) : Action :=
  if v.is_in_block i then .eprx1
  else if v.is_eprx3 i then .eprx3
  else if v.is_charge i ∧ 1/1000000 < v.charge i then .charge
  else if v.is_discharge i ∧ 1/1000000 < v.discharge i then .discharge
  else .idle

/-- The per-slot activation draw of the V2 engine (line 578):
`random.random() * 100 <= eprx3_activation_rate`, where `r` is the value the
unseeded random source produced for this slot. -/
def eprx3Activated (pp : ParamsV2) (r : ℚ) : Bool :=
  decide (r * 100 ≤ pp.eprx3_activation_rate)

/-- One extraction step of the V2 engine (lines 556-686 together with
`_calculate_slot_pnl_v2`): from the realized (actual) SoC before the slot it
produces the slot's output row and the realized SoC after the slot, clamped
into `[0, capacity]` (`max(0, min(capacity, next_soc))`, line 643).  An
EPRX3 slot discharges, and earns its kWh component, only when the activation
draw succeeds; the kW component is always earned. -/
def v2Step (pp : ParamsV2) (row : PriceRow) (v : DayVars) (i : ℕ) (r : ℚ)
    (previous_soc : ℚ) : SlotDecision × ℚ :=
  let p := pp.toBatteryParams
  let c_val := v.charge i
  let d_val := v.discharge i
  let act := chooseActionV2 v i
  let activated := if act = .eprx3 then eprx3Activated pp r else false
  let j_a := orZero row.JEPX_actual
  let e1_a := orZero row.EPRX1_actual
  let e3_a := orZero row.EPRX3_actual
  let imb_a := orZero row.imbalance
  let c_kwh := if act = .charge then c_val * p.half_power_kWh else 0
  let effective_kwh :=
    match act with
    | .charge => c_val * p.half_power_kWh
    | .discharge => d_val * p.half_power_kWh * (1 - p.battery_loss_rate)
    | .eprx3 =>
        if activated then p.half_power_kWh * (1 - p.battery_loss_rate) else 0
    | _ => 0
  let loss_kwh :=
    match act with
    | .discharge => d_val * p.half_power_kWh * p.battery_loss_rate
    | .eprx3 => if activated then p.half_power_kWh * p.battery_loss_rate else 0
    | _ => 0
  let next_raw :=
    match act with
    | .charge => previous_soc + c_kwh
    | .discharge => previous_soc - (effective_kwh + loss_kwh)
    | .eprx3 =>
        if activated then previous_soc - (effective_kwh + loss_kwh)
        else previous_soc
    | _ => previous_soc
  let next_soc := max 0 (min p.battery_capacity_kWh next_raw)
  let v1_price := imb_a * (pp.v1_price_pct / 100)
  let jepx_pnl :=
    match act with
    | .charge => -(j_a * TAX * (c_kwh / (1 - p.wheeling_loss_rate)))
    | .discharge =>
        j_a * TAX *
          (effective_kwh / (1 - p.battery_loss_rate) * (1 - p.battery_loss_rate))
    | _ => 0
  let eprx1_pnl :=
    match act with
    | .eprx1 => e1_a * TAX * p.battery_power_kW
    | _ => 0
  let eprx3_pnl :=
    match act with
    | .eprx3 =>
        TAX * (p.battery_power_kW * e3_a +
          (if activated then effective_kwh * v1_price else 0))
    | _ => 0
  ({ date := row.date
     slot := row.slot
     action := act
     battery_level_kWh := round2 next_soc
     charge_kWh := if act = .charge then round3 c_kwh else 0
     discharge_kWh := if act = .discharge then round3 effective_kwh else 0
     EPRX3_kWh := if act = .eprx3 ∧ activated = true then round3 effective_kwh else 0
     loss_kWh := round3 loss_kwh
     JEPX_actual := round3 j_a
     EPRX1_actual := round3 e1_a
     EPRX3_actual := round3 e3_a
     imbalance := round3 imb_a
     JEPX_PnL := roundHalfEven jepx_pnl
     EPRX1_PnL := roundHalfEven eprx1_pnl
     EPRX3_PnL := roundHalfEven eprx3_pnl
     Total_Daily_PnL := roundHalfEven (jepx_pnl + eprx1_pnl + eprx3_pnl) },
   next_soc)

/-- The V2 extraction loop over the slots `i, i+1, ...` (`fuel` many),
threading the realized SoC and collecting the output rows. -/
def v2Go (pp : ParamsV2) (w : List PriceRow) (v : DayVars) (rand : ℕ → ℚ) :
    ℕ → ℕ → ℚ → List SlotDecision × ℚ
  | _, 0, soc => ([], soc)
  | i, fuel + 1, soc =>
      let step := v2Step pp (getRow w i) v i (rand i) soc
      let rest := v2Go pp w v rand (i + 1) fuel step.2
      (step.1 :: rest.1, rest.2)

/-- The V2 per-day extraction (`_solve_daily_optimization` result): the rows
and the realized final SoC returned to the day loop (line 699:
`final_soc = actual_soc[-1]`, not the MILP's `battery_soc[day_slots]`). -/
def v2ExtractDay (pp : ParamsV2) (w : List PriceRow) (v : DayVars)
    (initial_soc : ℚ) (rand : ℕ → ℚ) : List SlotDecision × ℚ :=
  v2Go pp w v rand 0 w.length initial_soc

/-- The realized SoC after applying the steps `i .. i+fuel-1` from `soc`. -/
def v2SocFrom (pp : ParamsV2) (w : List PriceRow) (v : DayVars)
    (rand : ℕ → ℚ) : ℕ → ℕ → ℚ → ℚ
  | _, 0, soc => soc
  | i, fuel + 1, soc =>
      v2SocFrom pp w v rand (i + 1) fuel
        (v2Step pp (getRow w i) v i (rand i) soc).2

/-- The V2 engine's `actual_soc[k]` sequence (lines 554, 625-644): the
realized SoC after the first `k` slots. -/
def v2RealizedSoc (pp : ParamsV2) (w : List PriceRow) (v : DayVars)
    (rand : ℕ → ℚ) (initial_soc : ℚ) (k : ℕ) : ℚ :=
  v2SocFrom pp w v rand 0 k initial_soc

/-- The final SoC computed by the extraction loop is the realized SoC. -/
lemma v2Go_snd (pp : ParamsV2) (w : List PriceRow) (v : DayVars)
    (rand : ℕ → ℚ) :
    ∀ fuel i soc, (v2Go pp w v rand i fuel soc).2 = v2SocFrom pp w v rand i fuel soc := by
  intro fuel
  induction fuel with
  | zero => intro i soc; rfl
  | succ n ih => intro i soc; simp only [v2Go, v2SocFrom]; exact ih (i + 1) _

/-- Unfolding `v2SocFrom` at the far end: the SoC after `fuel + 1` steps is
one step applied to the SoC after `fuel` steps. -/
lemma v2SocFrom_succ (pp : ParamsV2) (w : List PriceRow) (v : DayVars)
    (rand : ℕ → ℚ) :
    ∀ fuel i soc,
      v2SocFrom pp w v rand i (fuel + 1) soc =
        (v2Step pp (getRow w (i + fuel)) v (i + fuel) (rand (i + fuel))
          (v2SocFrom pp w v rand i fuel soc)).2 := by
  intro fuel
  induction fuel with
  | zero => intro i soc; simp [v2SocFrom]
  | succ n ih =>
      intro i soc
      have h1 : v2SocFrom pp w v rand i (n + 1 + 1) soc =
          v2SocFrom pp w v rand (i + 1) (n + 1)
            (v2Step pp (getRow w i) v i (rand i) soc).2 := rfl
      rw [h1, ih (i + 1)]
      have h2 : v2SocFrom pp w v rand i (n + 1) soc =
          v2SocFrom pp w v rand (i + 1) n
            (v2Step pp (getRow w i) v i (rand i) soc).2 := rfl
      rw [h2, show i + 1 + n = i + (n + 1) by omega]

/-- The V2 day loop (`_run_battery_optimization`, lines 279-335): windows are
processed in order; an empty window or a day whose solve raises (non-optimal
backend status, line 544) is skipped with `continue`, leaving `current_soc`
unchanged; otherwise the day's rows are appended and `current_soc` becomes
the day's realized final SoC (`current_soc = final_soc`, line 316).  The
activation draws of day `k` are `rand k`. -/
def v2RunDays (pp : ParamsV2) (solver : ℕ → ℚ → SolveResult)
    (rand : ℕ → ℕ → ℚ) :
    List (List PriceRow) → ℕ → ℚ → List SlotDecision
  | [], _, _ => []
  | w :: ws, k, current_soc =>
      if w.length = 0 then v2RunDays pp solver rand ws (k + 1) current_soc
      else
        let res := solver k current_soc
        if res.optimal = false then
          v2RunDays pp solver rand ws (k + 1) current_soc
        else
          let day := v2ExtractDay pp w res.vars current_soc (rand k)
          day.1 ++ v2RunDays pp solver rand ws (k + 1) day.2

/-- The extraction loop reads the draw oracle only at the slots it visits. -/
lemma v2Go_congr (pp : ParamsV2) (w : List PriceRow) (v : DayVars)
    (r r' : ℕ → ℚ) :
    ∀ fuel i soc, (∀ j, i ≤ j → j < i + fuel → r j = r' j) →
      v2Go pp w v r i fuel soc = v2Go pp w v r' i fuel soc := by
  intro fuel
  induction fuel with
  | zero => intro i soc h; rfl
  | succ n ih =>
      intro i soc h
      simp only [v2Go]
      rw [h i le_rfl (by omega),
        ih (i + 1) _ fun j hj1 hj2 => h j (by omega) (by omega)]

/-- C6 (amended).  The streamlit and V1 pipelines are pure functions of the
validated input, configuration and tariff (as modelled, `runDays` depends on
nothing else), but the V2 engine's output schedule is a function of those
inputs AND of the unseeded per-slot EPRX3 activation draws: two V2 runs
coincide whenever their draws agree on the window's slots, and (see the
counterexample) can differ on identical inputs when the draws differ. -/
theorem C6_v2_schedule_determined_by_draws (pp : ParamsV2)
    (w : List PriceRow) (v : DayVars) (soc0 : ℚ) (r r' : ℕ → ℚ)
    (h : ∀ j, j < w.length → r j = r' j) :
    v2ExtractDay pp w v soc0 r = v2ExtractDay pp w v soc0 r' :=
  v2Go_congr pp w v r r' w.length 0 soc0 fun j _ hj2 => h j (by omega)

/-- V2 parameters for the nondeterminism instance: 50% EPRX3 activation rate
and a 100% V1 price percentage. -/
def pp6 : ParamsV2 :=
  { toBatteryParams := exP
    eprx3_activation_rate := 50
    v1_price_pct := 100 }

/-- A one-slot window carrying a valid EPRX3 price. -/
def exW6 : List PriceRow :=
  [ { date := (2023, 4, 1), slot := 1, JEPX_prediction := none,
      JEPX_actual := none, EPRX1_prediction := none,
      EPRX1_actual := none, EPRX3_prediction := some 5,
      EPRX3_actual := some 5, imbalance := some 2 } ]

/-- The solved assignment selecting EPRX3 in the only slot. -/
def exV6 : DayVars :=
  { charge := fun _ => 0
    discharge := fun _ => 0
    block_start := fun _ => false
    is_in_block := fun _ => false
    is_charge := fun _ => false
    is_discharge := fun _ => false
    is_eprx3 := fun i => decide (i = 0)
    is_idle := fun _ => false
    battery_soc := fun i => if i = 0 then 50 else 45 }

/-- The EPRX3 assignment satisfies every posted constraint of `exW6`. -/
lemma exV6_feasible : Feasible exP exW6 50 exV6 := by
  refine ⟨⟨?_, ?_, ?_⟩, ?_, ?_, ?_, ?_, ?_, ?_, ⟨?_, ?_⟩, ?_, ?_, ?_, ?_⟩
  · intro i hi; norm_num [exV6]
  · intro i hi; norm_num [exV6]
  · intro i hi
    rw [show exW6.length = 1 from rfl] at hi
    interval_cases i <;> norm_num [exV6, exP]
  · intro i hi
    rw [show exW6.length = 1 from rfl] at hi
    interval_cases i <;> norm_num [exV6, b2q]
  · intro i hi; norm_num [exV6, b2q]
  · intro i hi
    rw [show exW6.length = 1 from rfl] at hi
    simp only [exP]
    interval_cases i <;>
      simp [exV6, b2q, show possibleStarts 2 0 = [0] from by decide]
  · intro i hi hmz
    rw [show exW6.length = 1 from rfl] at hi
    interval_cases i <;> simp [getRow, exW6, missingOrZero] at hmz
  · intro i hi
    rw [show exW6.length = 1 from rfl] at hi
    interval_cases i <;>
      norm_num [exV6, exP, b2q, BatteryParams.half_power_kWh]
  · rfl
  · intro i hi j hj1 hj2
    norm_num [exV6, b2q]
  · intro i hi hlate
    rfl
  · intro h; simp [exP] at h
  · intro i hi s hs1 hs2 hmz
    rfl
  · intro i hi
    rw [show exW6.length = 1 from rfl] at hi
    interval_cases i <;> norm_num [exV6, exP, b2q]
  · intro h; simp [exP] at h

/-- A draw stream whose slot-0 draw activates EPRX3 at a 50% rate. -/
def r6a : ℕ → ℚ := fun _ => 1/10

/-- A draw stream whose slot-0 draw does not activate EPRX3 at 50%. -/
def r6b : ℕ → ℚ := fun _ => 9/10

/-- Witness for C6: draw-congruence applied to two syntactically different
oracles agreeing on the window. -/
theorem C6_v2_schedule_determined_by_draws_witness :
    (∀ j, j < exW6.length → r6a j = (fun _ => (1:ℚ)/10) j) ∧
      v2ExtractDay pp6 exW6 exV6 50 r6a =
        v2ExtractDay pp6 exW6 exV6 50 (fun _ => (1:ℚ)/10) :=
  ⟨fun j _ => rfl,
    C6_v2_schedule_determined_by_draws pp6 exW6 exV6 50 r6a
      (fun _ => (1:ℚ)/10) fun j _ => rfl⟩

/-- Counterexample for C6 as stated: two V2 runs on the identical validated
window, identical configuration and tariff, and the identical solved
assignment `exV6` produce different schedules and different carried-forward
SoC when the unseeded activation draws differ — so the V2 output is not a
deterministic function of input, config and tariff alone. -/
theorem C6_counterexample :
    Feasible exP exW6 50 exV6 ∧
      (v2ExtractDay pp6 exW6 exV6 50 r6a).2 = 45 ∧
      (v2ExtractDay pp6 exW6 exV6 50 r6b).2 = 50 ∧
      (v2ExtractDay pp6 exW6 exV6 50 r6a).1 ≠
        (v2ExtractDay pp6 exW6 exV6 50 r6b).1 := by
  have hact : chooseActionV2 exV6 0 = .eprx3 := rfl
  have ha : (v2ExtractDay pp6 exW6 exV6 50 r6a).2 =
      (v2Step pp6 (getRow exW6 0) exV6 0 (r6a 0) 50).2 := rfl
  have hb : (v2ExtractDay pp6 exW6 exV6 50 r6b).2 =
      (v2Step pp6 (getRow exW6 0) exV6 0 (r6b 0) 50).2 := rfl
  refine ⟨exV6_feasible, ?_, ?_, ?_⟩
  · rw [ha]
    norm_num [v2Step, hact, eprx3Activated, r6a, pp6, exP,
      BatteryParams.half_power_kWh]
  · rw [hb]
    norm_num [v2Step, hact, eprx3Activated, r6b, pp6, exP,
      BatteryParams.half_power_kWh]
  · intro heq
    have h1 : (v2ExtractDay pp6 exW6 exV6 50 r6a).1 =
        [(v2Step pp6 (getRow exW6 0) exV6 0 (r6a 0) 50).1] := rfl
    have h2 : (v2ExtractDay pp6 exW6 exV6 50 r6b).1 =
        [(v2Step pp6 (getRow exW6 0) exV6 0 (r6b 0) 50).1] := rfl
    rw [h1, h2] at heq
    have hfield := congrArg SlotDecision.EPRX3_kWh
      (List.head_eq_of_cons_eq heq)
    have hA : (v2Step pp6 (getRow exW6 0) exV6 0 (r6a 0) 50).1.EPRX3_kWh =
        9/2 := by
      norm_num [v2Step, hact, eprx3Activated, r6a, pp6, exP,
        BatteryParams.half_power_kWh, round3, roundHalfEven]
    have hB : (v2Step pp6 (getRow exW6 0) exV6 0 (r6b 0) 50).1.EPRX3_kWh =
        0 := by
      norm_num [v2Step, hact, eprx3Activated, r6b, pp6, exP,
        BatteryParams.half_power_kWh, round3, roundHalfEven]
    rw [hA, hB] at hfield
    norm_num at hfield

/-- Exclusivity forces the other indicators off while EPRX3 is selected. -/
lemma eprx3_excl {n : ℕ} {v : DayVars} (hEx : Exclusivity n v) {i : ℕ}
    (hi : i < n) (he : v.is_eprx3 i = true) :
    v.is_charge i = false ∧ v.is_discharge i = false ∧
      v.is_in_block i = false := by
  have hsum := hEx i hi
  cases h1 : v.is_charge i <;> cases h2 : v.is_discharge i <;>
    cases h3 : v.is_in_block i <;> cases h4 : v.is_idle i <;>
      simp [b2q, h1, h2, h3, h4, he] at hsum ⊢ <;> norm_num at hsum

/-- An EPRX3 slot, on the planned (MILP) SoC, always drops by half power. -/
lemma planned_soc_eprx3_step {p : BatteryParams} {n : ℕ} {v : DayVars}
    (hB : VarBounds p n v) (hEx : Exclusivity n v) (hL : Linkage n v)
    (hT : SocTransition p n v) {i : ℕ} (hi : i < n)
    (he : v.is_eprx3 i = true) :
    v.battery_soc (i + 1) = v.battery_soc i - p.half_power_kWh := by
  obtain ⟨hc, hd, _⟩ := eprx3_excl hEx hi he
  rw [hT i hi, charge_eq_zero hB hL hi hc, discharge_eq_zero hB hL hi hd, he]
  norm_num [b2q]

/-- V2 read-back of `eprx3` pins down the block and EPRX3 indicators. -/
lemma actionV2_eprx3_vars {v : DayVars} {i : ℕ}
    (h : chooseActionV2 v i = .eprx3) :
    v.is_in_block i = false ∧ v.is_eprx3 i = true := by
  unfold chooseActionV2 at h
  by_cases h1 : v.is_in_block i = true
  · rw [if_pos h1] at h; simp at h
  · rw [if_neg h1] at h
    by_cases h2 : v.is_eprx3 i = true
    · exact ⟨Bool.eq_false_iff.mpr h1, h2⟩
    · rw [if_neg h2] at h
      split_ifs at h <;> simp at h

/-- The realized SoC produced by one V2 step stays within `[0, capacity]`. -/
lemma v2Step_snd_bounds (pp : ParamsV2) (row : PriceRow) (v : DayVars)
    (i : ℕ) (r s : ℚ)
    (hcap : 0 ≤ pp.toBatteryParams.battery_capacity_kWh) :
    0 ≤ (v2Step pp row v i r s).2 ∧
      (v2Step pp row v i r s).2 ≤ pp.toBatteryParams.battery_capacity_kWh := by
  simp only [v2Step]
  exact ⟨le_max_left 0 _, max_le hcap (min_le_left _ _)⟩

/-- A non-activated EPRX3 slot leaves the realized SoC unchanged (the clamp
is the identity on a value already inside `[0, capacity]`). -/
lemma v2Step_snd_no_activation (pp : ParamsV2) (row : PriceRow)
    (v : DayVars) (i : ℕ) (r s : ℚ) (h0 : 0 ≤ s)
    (hcap : s ≤ pp.toBatteryParams.battery_capacity_kWh)
    (hact : chooseActionV2 v i = .eprx3)
    (hna : eprx3Activated pp r = false) :
    (v2Step pp row v i r s).2 = s := by
  simp only [v2Step, hact, hna]
  norm_num
  rw [min_eq_right hcap, max_eq_right h0]

/-- The realized SoC sequence stays within `[0, capacity]` whenever the
opening SoC does. -/
lemma v2RealizedSoc_mem (pp : ParamsV2) (w : List PriceRow) (v : DayVars)
    (rand : ℕ → ℚ) (soc0 : ℚ) (h0 : 0 ≤ soc0)
    (hcap0 : soc0 ≤ pp.toBatteryParams.battery_capacity_kWh) :
    ∀ k, 0 ≤ v2RealizedSoc pp w v rand soc0 k ∧
      v2RealizedSoc pp w v rand soc0 k ≤
        pp.toBatteryParams.battery_capacity_kWh := by
  have hcap : 0 ≤ pp.toBatteryParams.battery_capacity_kWh := le_trans h0 hcap0
  intro k
  induction k with
  | zero => exact ⟨h0, hcap0⟩
  | succ m _ =>
      have hs : v2RealizedSoc pp w v rand soc0 (m + 1) =
          (v2Step pp (getRow w m) v m (rand m)
            (v2RealizedSoc pp w v rand soc0 m)).2 := by
        unfold v2RealizedSoc
        rw [v2SocFrom_succ]
        norm_num
      rw [hs]
      exact v2Step_snd_bounds pp (getRow w m) v m (rand m) _ hcap

/-- C10.  In the V2 engine the SoC carried into each subsequent window is the
previous window's realized end-of-window SoC — the clamped
(`max(0, min(capacity, ·))`) recursion over actual per-slot EPRX3 activation
draws — and not the MILP's planned closing `soc[n]`: the day loop threads
`(v2ExtractDay …).2`, which equals `v2RealizedSoc` at the window length, and
at every non-activated EPRX3 slot the realized SoC stays put while the plan
drops by half power, so the carried SoC exceeds the plan by an additional
half-power amount from that slot on. -/
theorem C10_v2_soc_carry (pp : ParamsV2) (solver : ℕ → ℚ → SolveResult)
    (rand : ℕ → ℕ → ℚ) (w : List PriceRow) (ws : List (List PriceRow))
    (k : ℕ) (soc0 : ℚ) (hw : w.length ≠ 0)
    (hopt : (solver k soc0).optimal = true)
    (hF : Feasible pp.toBatteryParams w soc0 (solver k soc0).vars) :
    v2RunDays pp solver rand (w :: ws) k soc0 =
        (v2ExtractDay pp w (solver k soc0).vars soc0 (rand k)).1 ++
          v2RunDays pp solver rand ws (k + 1)
            (v2ExtractDay pp w (solver k soc0).vars soc0 (rand k)).2 ∧
      (v2ExtractDay pp w (solver k soc0).vars soc0 (rand k)).2 =
        v2RealizedSoc pp w (solver k soc0).vars (rand k) soc0 w.length ∧
      (∀ j, j < w.length →
        chooseActionV2 (solver k soc0).vars j = .eprx3 →
        eprx3Activated pp (rand k j) = false →
        v2RealizedSoc pp w (solver k soc0).vars (rand k) soc0 (j + 1) =
            v2RealizedSoc pp w (solver k soc0).vars (rand k) soc0 j ∧
          v2RealizedSoc pp w (solver k soc0).vars (rand k) soc0 (j + 1) -
              (solver k soc0).vars.battery_soc (j + 1) =
            v2RealizedSoc pp w (solver k soc0).vars (rand k) soc0 j -
                (solver k soc0).vars.battery_soc j +
              pp.toBatteryParams.half_power_kWh) := by
  set v := (solver k soc0).vars with hv
  obtain ⟨hB, hEx, hL, _, _, hT, hsoc0, _, _, _, _, _⟩ := hF
  have hs00 : 0 ≤ soc0 := by
    have := (hB.2.2 0 (by omega)).1
    rwa [hsoc0] at this
  have hs0c : soc0 ≤ pp.toBatteryParams.battery_capacity_kWh := by
    have := (hB.2.2 0 (by omega)).2
    rwa [hsoc0] at this
  refine ⟨?_, ?_, ?_⟩
  · have hrun : v2RunDays pp solver rand (w :: ws) k soc0 =
        if w.length = 0 then v2RunDays pp solver rand ws (k + 1) soc0
        else if (solver k soc0).optimal = false then
          v2RunDays pp solver rand ws (k + 1) soc0
        else
          (v2ExtractDay pp w (solver k soc0).vars soc0 (rand k)).1 ++
            v2RunDays pp solver rand ws (k + 1)
              (v2ExtractDay pp w (solver k soc0).vars soc0 (rand k)).2 := rfl
    rw [hrun, if_neg hw, hopt, if_neg (show ¬(true = false) from by simp)]
  · exact v2Go_snd pp w v (rand k) w.length 0 soc0
  · intro j hj hact hna
    have hmem := v2RealizedSoc_mem pp w v (rand k) soc0 hs00 hs0c j
    have hstep : v2RealizedSoc pp w v (rand k) soc0 (j + 1) =
        (v2Step pp (getRow w j) v j (rand k j)
          (v2RealizedSoc pp w v (rand k) soc0 j)).2 := by
      unfold v2RealizedSoc
      rw [v2SocFrom_succ]
      norm_num
    have hkeep : v2RealizedSoc pp w v (rand k) soc0 (j + 1) =
        v2RealizedSoc pp w v (rand k) soc0 j := by
      rw [hstep]
      exact v2Step_snd_no_activation pp (getRow w j) v j (rand k j) _
        hmem.1 hmem.2 hact hna
    have hplan : v.battery_soc (j + 1) =
        v.battery_soc j - pp.toBatteryParams.half_power_kWh :=
      planned_soc_eprx3_step hB hEx hL hT hj (actionV2_eprx3_vars hact).2
    refine ⟨hkeep, ?_⟩
    rw [hkeep, hplan]
    ring

/-- A V2 solver stub returning the EPRX3 assignment for every day. -/
def exSolver10 : ℕ → ℚ → SolveResult := fun _ _ => ⟨true, exV6⟩

/-- A draw oracle that never activates at a 50% rate. -/
def rand10 : ℕ → ℕ → ℚ := fun _ _ => 9/10

/-- Witness for C10: the carry theorem applied to a concrete one-window run
whose only slot is a non-activated EPRX3 dispatch. -/
theorem C10_v2_soc_carry_witness :
    exW6.length ≠ 0 ∧ (exSolver10 0 50).optimal = true ∧
      Feasible pp6.toBatteryParams exW6 50 (exSolver10 0 50).vars ∧
      (v2RunDays pp6 exSolver10 rand10 [exW6] 0 50 =
          (v2ExtractDay pp6 exW6 (exSolver10 0 50).vars 50 (rand10 0)).1 ++
            v2RunDays pp6 exSolver10 rand10 [] 1
              (v2ExtractDay pp6 exW6 (exSolver10 0 50).vars 50 (rand10 0)).2 ∧
        (v2ExtractDay pp6 exW6 (exSolver10 0 50).vars 50 (rand10 0)).2 =
          v2RealizedSoc pp6 exW6 (exSolver10 0 50).vars (rand10 0) 50
            exW6.length ∧
        (∀ j, j < exW6.length →
          chooseActionV2 (exSolver10 0 50).vars j = .eprx3 →
          eprx3Activated pp6 (rand10 0 j) = false →
          v2RealizedSoc pp6 exW6 (exSolver10 0 50).vars (rand10 0) 50 (j + 1) =
              v2RealizedSoc pp6 exW6 (exSolver10 0 50).vars (rand10 0) 50 j ∧
            v2RealizedSoc pp6 exW6 (exSolver10 0 50).vars (rand10 0) 50
                  (j + 1) -
                (exSolver10 0 50).vars.battery_soc (j + 1) =
              v2RealizedSoc pp6 exW6 (exSolver10 0 50).vars (rand10 0) 50 j -
                  (exSolver10 0 50).vars.battery_soc j +
                pp6.toBatteryParams.half_power_kWh)) :=
  ⟨by norm_num [exW6], rfl, exV6_feasible,
    C10_v2_soc_carry pp6 exSolver10 rand10 exW6 [] 0 50
      (by norm_num [exW6]) rfl exV6_feasible⟩

/-- `RENEWABLE_ENERGY_SURCHARGE = 3.49` yen/kWh (`area_config.py` line 9 and
the fixed-rate fallback `3.49` of both engines' summaries). -/
def RENEWABLE_ENERGY_SURCHARGE : ℚ := 3.49

/-- The aggregate summary of the desktop engines (`_generate_summary`,
`optimization_engine.py` lines 804-850 and the identical
`optimization_engine_v2.py` lines 766-821, fixed-rate surcharge path). -/
structure Summary where
  Total_Charge_kWh : ℚ
  Total_Discharge_kWh : ℚ
  Total_EPRX3_kWh : ℚ
  Total_Loss_kWh : ℚ
  Total_Daily_PnL : ℚ
  Wheeling_Basic_Fee : ℚ
  Wheeling_Usage_Fee : ℚ
  Renewable_Energy_Surcharge : ℚ
  Final_Profit : ℚ
deriving DecidableEq

/-- `_generate_summary` of the desktop engines: column sums over the result
rows, the wheeling base fee on contracted power, the usage fee and surcharge
on total loss, and the final profit net of all three. -/
def generate_summary (results : List SlotDecision) (battery_power_kW : ℚ)
    (wheeling_base_charge wheeling_usage_fee : ℚ) : Summary :=
  let total_charge_kWh := (results.map fun r => r.charge_kWh).sum
  let total_discharge_kWh := (results.map fun r => r.discharge_kWh).sum
  let total_eprx3_kWh := (results.map fun r => r.EPRX3_kWh).sum
  let total_loss_kWh := (results.map fun r => r.loss_kWh).sum
  let total_daily_pnl := (results.map fun r => (r.Total_Daily_PnL : ℚ)).sum
  let base_fee := wheeling_base_charge * battery_power_kW
  let usage_fee := wheeling_usage_fee * total_loss_kWh
  let renewable_energy_surcharge := RENEWABLE_ENERGY_SURCHARGE * total_loss_kWh
  { Total_Charge_kWh := total_charge_kWh
    Total_Discharge_kWh := total_discharge_kWh
    Total_EPRX3_kWh := total_eprx3_kWh
    Total_Loss_kWh := total_loss_kWh
    Total_Daily_PnL := total_daily_pnl
    Wheeling_Basic_Fee := base_fee
    Wheeling_Usage_Fee := usage_fee
    Renewable_Energy_Surcharge := renewable_energy_surcharge
    Final_Profit := total_daily_pnl - base_fee - usage_fee -
      renewable_energy_surcharge }

/-- The `total_loss_kWh` accumulation of the streamlit core (lines 342-350 of
`src/optimization.py`): loss is collected from `discharge` and `eprx3` rows
only. -/
def streamlitTotalLoss (rows : List SlotDecision) : ℚ :=
  ((rows.filter fun r => r.action = .discharge).map fun r => r.loss_kWh).sum +
    ((rows.filter fun r => r.action = .eprx3).map fun r => r.loss_kWh).sum

/-- The streamlit `total_profit` of a one-window run: the sum of the
unrounded per-slot `slot_total_pnl` (lines 304-305, 329). -/
def streamlitDayProfit (p : BatteryParams) (w : List PriceRow)
    (v : DayVars) : ℚ :=
  ((List.range w.length).map fun i => slotPnlQ p (getRow w i) v i).sum

/-- The streamlit `final_profit` of a one-window run (lines 352-356):
`total_profit - (wheeling_base_charge * battery_power_kW +
wheeling_usage_fee * total_loss_kWh)` — no renewable surcharge is
deducted. -/
def streamlit_final_profit (p : BatteryParams) (w : List PriceRow)
    (v : DayVars) (wheeling_base_charge wheeling_usage_fee : ℚ) : ℚ :=
  let rows := dayDecisions p w v
  let total_loss_kWh := streamlitTotalLoss rows
  let monthly_fee := wheeling_base_charge * p.battery_power_kW +
    wheeling_usage_fee * total_loss_kWh
  streamlitDayProfit p w v - monthly_fee

/-- C7 (amended).  The desktop engines' aggregate summary applies all three
deductions: its net profit equals the total per-slot PnL minus the wheeling
base fee (`wheeling_base_charge * power_kw`), minus the wheeling usage fee
(`wheeling_usage_fee * total_loss_kwh`), minus the renewable surcharge
(`RENEWABLE_ENERGY_SURCHARGE * total_loss_kwh`).  The streamlit core's
`final_profit` deducts only the two wheeling components and no renewable
surcharge (see the counterexample). -/
theorem C7_net_profit_formula (results : List SlotDecision)
    (battery_power_kW wheeling_base_charge wheeling_usage_fee : ℚ) :
    (generate_summary results battery_power_kW wheeling_base_charge
        wheeling_usage_fee).Final_Profit =
      (results.map fun r => (r.Total_Daily_PnL : ℚ)).sum -
        wheeling_base_charge * battery_power_kW -
        wheeling_usage_fee * (results.map fun r => r.loss_kWh).sum -
        RENEWABLE_ENERGY_SURCHARGE * (results.map fun r => r.loss_kWh).sum :=
  rfl

/-- The loss total of the concrete solved window: only the EPRX3 slot loses
energy, `half_power * loss_rate = 0.5` kWh. -/
lemma exW_total_loss : streamlitTotalLoss (dayDecisions exP exW exV) = 1/2 := by
  have hrows : dayDecisions exP exW exV =
      [extractSlot exP (getRow exW 0) exV 0,
       extractSlot exP (getRow exW 1) exV 1,
       extractSlot exP (getRow exW 2) exV 2,
       extractSlot exP (getRow exW 3) exV 3] := rfl
  rw [streamlitTotalLoss, hrows]
  have h0 : (extractSlot exP (getRow exW 0) exV 0).action = .eprx1 := rfl
  have h1 : (extractSlot exP (getRow exW 1) exV 1).action = .eprx1 := rfl
  have h2 : (extractSlot exP (getRow exW 2) exV 2).action = .eprx3 := rfl
  have h3 : (extractSlot exP (getRow exW 3) exV 3).action = .idle := rfl
  have hloss2 : (extractSlot exP (getRow exW 2) exV 2).loss_kWh = 1/2 := by
    norm_num [extractSlot, settleSlot, exP, exV, exW, getRow, orZero,
      chooseAction, round3, roundHalfEven, BatteryParams.half_power_kWh, TAX]
  simp [List.filter_cons, h0, h1, h2, h3, hloss2]

/-- Counterexample for C7 as stated: for the concrete solved window the
streamlit `final_profit` (with zero wheeling fees, for clarity) equals the
total PnL undiminished, whereas the claimed formula would further subtract
the nonzero renewable surcharge `3.49 * 0.5`. -/
theorem C7_counterexample :
    Feasible exP exW 50 exV ∧
      streamlit_final_profit exP exW exV 0 0 =
        streamlitDayProfit exP exW exV ∧
      RENEWABLE_ENERGY_SURCHARGE *
          streamlitTotalLoss (dayDecisions exP exW exV) ≠ 0 ∧
      streamlit_final_profit exP exW exV 0 0 ≠
        streamlitDayProfit exP exW exV -
          0 * exP.battery_power_kW -
          0 * streamlitTotalLoss (dayDecisions exP exW exV) -
          RENEWABLE_ENERGY_SURCHARGE *
            streamlitTotalLoss (dayDecisions exP exW exV) := by
  refine ⟨exV_feasible, ?_, ?_, ?_⟩
  · rw [streamlit_final_profit]
    ring
  · rw [exW_total_loss, RENEWABLE_ENERGY_SURCHARGE]
    norm_num
  · rw [streamlit_final_profit, exW_total_loss, RENEWABLE_ENERGY_SURCHARGE]
    norm_num
    intro heq
    linarith

/-- The month key `df["date"].dt.to_period("M")` of a decision row. -/
def monthOf (d : SlotDecision) : ℕ × ℕ := (d.date.1, d.date.2.1)

/-- The `Total_Monthly_PnL` column of `_generate_monthly_summary`
(`optimization_engine.py` lines 871-928): rows are grouped by month and each
group's `Total_Daily_PnL` sum is rounded to whole currency units. -/
def generate_monthly_summary_pnl (results : List SlotDecision) :
    List ((ℕ × ℕ) × ℤ) :=
  let months := (results.map monthOf).dedup
  months.map fun m =>
    (m, roundHalfEven
      (((results.filter fun r => monthOf r = m).map
          fun r => (r.Total_Daily_PnL : ℚ)).sum))

/-- Rounding is the identity on integers. -/
lemma roundHalfEven_intCast (z : ℤ) : roundHalfEven (z : ℚ) = z := by
  unfold roundHalfEven
  rw [Int.floor_intCast]
  norm_num

/-- A sum of casts of integers is the cast of the integer sum. -/
lemma sum_map_intCast {α : Type} (l : List α) (f : α → ℤ) :
    (l.map fun r => ((f r : ℤ) : ℚ)).sum = (((l.map f).sum : ℤ) : ℚ) := by
  induction l with
  | nil => simp
  | cons a t ih => simp [ih]

/-- Splitting a mapped sum along a decidable predicate. -/
lemma filter_map_sum_split {α : Type} (l : List α) (p : α → Prop)
    [DecidablePred p] (f : α → ℤ) :
    ((l.filter fun a => p a).map f).sum +
        ((l.filter fun a => ¬ p a).map f).sum =
      (l.map f).sum := by
  induction l with
  | nil => simp
  | cons a t ih =>
      simp only [List.filter_cons, decide_not] at ih ⊢
      by_cases hp : p a
      · simp [hp]
        omega
      · simp [hp]
        omega

/-- Summing the second components of key-value pairs casts to the cast of the
integer sum. -/
lemma sum_snd_map {κ : Type} (ms : List κ) (g : κ → ℤ) :
    ((ms.map fun m => (m, g m)).map fun x => ((x.2 : ℤ) : ℚ)).sum =
      (((ms.map g).sum : ℤ) : ℚ) := by
  induction ms with
  | nil => simp
  | cons a t ih =>
      simp only [List.map_cons, List.sum_cons]
      push_cast
      rw [ih]
      push_cast
      ring

/-- Summing group sums over a duplicate-free list of keys covering every
element recovers the total sum. -/
lemma sum_groups_eq_total {α κ : Type} [DecidableEq κ] (key : α → κ)
    (f : α → ℤ) :
    ∀ ks : List κ, ks.Nodup → ∀ l : List α, (∀ r ∈ l, key r ∈ ks) →
      (ks.map fun m => ((l.filter fun r => key r = m).map f).sum).sum =
        (l.map f).sum := by
  intro ks
  induction ks with
  | nil =>
      intro _ l hcov
      cases l with
      | nil => simp
      | cons a t => exact absurd (hcov a (by simp)) (by simp)
  | cons m ks ih =>
      intro hnd l hcov
      simp only [List.map_cons, List.sum_cons]
      have hsplit := filter_map_sum_split l (fun r => key r = m) f
      have hrest :
          (ks.map fun m' => ((l.filter fun r => key r = m').map f).sum).sum =
            ((l.filter fun r => ¬ key r = m).map f).sum := by
        have hmem : ∀ r ∈ l.filter fun r => ¬ key r = m, key r ∈ ks := by
          intro r hr
          have h1 := List.of_mem_filter hr
          have h2 := List.mem_of_mem_filter hr
          have h3 := hcov r h2
          simp only [decide_not, Bool.not_eq_true', decide_eq_false_iff_not]
            at h1
          rcases List.mem_cons.mp h3 with h4 | h4
          · exact absurd h4 h1
          · exact h4
        have hsame : ∀ m' ∈ ks,
            ((l.filter fun r => key r = m').map f).sum =
              (((l.filter fun r => ¬ key r = m).filter
                  fun r => key r = m').map f).sum := by
          intro m' hm'
          have hmne : m' ≠ m := by
            intro he
            rw [he] at hm'
            exact (List.nodup_cons.mp hnd).1 hm'
          have hfil : (l.filter fun r => key r = m') =
              ((l.filter fun r => ¬ key r = m).filter
                fun r => key r = m') := by
            rw [List.filter_filter]
            apply List.filter_congr
            intro r _
            by_cases hk : key r = m'
            · have hkm : ¬ key r = m := by rw [hk]; exact hmne
              simp [hk, hkm, hmne]
            · simp [hk]
          rw [hfil]
        rw [List.map_congr_left hsame]
        exact ih (List.nodup_cons.mp hnd).2 _ hmem
      rw [hrest]
      omega

/-- C8.  For any decision sequence, summing the per-month `Total_Monthly_PnL`
values of the monthly summary equals the aggregate `Total_Daily_PnL` of the
overall summary: every row belongs to exactly one month group, and the
monthly rounding is vacuous because the per-slot PnL values are already
whole currency units. -/
theorem C8_monthly_sums_to_total (results : List SlotDecision)
    (battery_power_kW wheeling_base_charge wheeling_usage_fee : ℚ) :
    ((generate_monthly_summary_pnl results).map fun x => ((x.2 : ℤ) : ℚ)).sum =
      (generate_summary results battery_power_kW wheeling_base_charge
        wheeling_usage_fee).Total_Daily_PnL := by
  have hmonth : generate_monthly_summary_pnl results =
      ((results.map monthOf).dedup).map fun m =>
        (m, ((results.filter fun r => monthOf r = m).map
            fun r => r.Total_Daily_PnL).sum) := by
    unfold generate_monthly_summary_pnl
    apply List.map_congr_left
    intro m _
    rw [sum_map_intCast, roundHalfEven_intCast]
  rw [hmonth]
  have htotal : (generate_summary results battery_power_kW
      wheeling_base_charge wheeling_usage_fee).Total_Daily_PnL =
      (results.map fun r => (r.Total_Daily_PnL : ℚ)).sum := rfl
  have hgroups := sum_groups_eq_total monthOf
    (fun r => r.Total_Daily_PnL) ((results.map monthOf).dedup)
    (List.nodup_dedup _)
    results (fun r hr => List.mem_dedup.mpr (List.mem_map_of_mem monthOf hr))
  rw [htotal, sum_snd_map, sum_map_intCast, hgroups]

/-- One cell of the wheeling table: loss rate, base charge (yen/kW) and
usage fee (yen/kWh). -/
structure WheelingEntry where
  loss_rate : ℚ
  wheeling_base_charge : ℚ
  wheeling_usage_fee : ℚ
deriving DecidableEq

/-- The fixed 9-area by 3-voltage-class `WHEELING_DATA` table
(`config/area_config.py` lines 12-60; `streamlit_app/src/config.py` holds the
identical values). -/
def WHEELING_DATA : List (String × List (String × WheelingEntry)) :=
  [ ("Hokkaido",
      [("SHV", ⟨0.02, 503.80, 0.92⟩), ("HV", ⟨0.047, 792.00, 2.17⟩),
       ("LV", ⟨0.079, 618.20, 4.22⟩)]),
    ("Tohoku",
      [("SHV", ⟨0.019, 630.30, 8.57⟩), ("HV", ⟨0.052, 706.20, 2.08⟩),
       ("LV", ⟨0.085, 456.50, 2.08⟩)]),
    ("Tokyo",
      [("SHV", ⟨0.013, 423.39, 1.33⟩), ("HV", ⟨0.037, 653.87, 2.37⟩),
       ("LV", ⟨0.069, 461.14, 5.20⟩)]),
    ("Chubu",
      [("SHV", ⟨0.025, 357.50, 0.88⟩), ("HV", ⟨0.038, 467.50, 2.21⟩),
       ("LV", ⟨0.071, 412.50, 6.07⟩)]),
    ("Hokuriku",
      [("SHV", ⟨0.013, 572.00, 0.85⟩), ("HV", ⟨0.034, 748.00, 1.76⟩),
       ("LV", ⟨0.078, 396.00, 4.69⟩)]),
    ("Kansai",
      [("SHV", ⟨0.029, 440.00, 0.84⟩), ("HV", ⟨0.078, 663.30, 2.29⟩),
       ("LV", ⟨0.078, 378.40, 4.69⟩)]),
    ("Chugoku",
      [("SHV", ⟨0.025, 383.90, 0.70⟩), ("HV", ⟨0.044, 658.90, 2.43⟩),
       ("LV", ⟨0.077, 466.40, 6.07⟩)]),
    ("Shikoku",
      [("SHV", ⟨0.013, 510.40, 0.77⟩), ("HV", ⟨0.041, 712.80, 2.01⟩),
       ("LV", ⟨0.081, 454.30, 5.97⟩)]),
    ("Kyushu",
      [("SHV", ⟨0.013, 482.05, 1.27⟩), ("HV", ⟨0.032, 553.28, 2.61⟩),
       ("LV", ⟨0.086, 379.26, 5.58⟩)]) ]

/-- `WHEELING_DATA["areas"][area][voltage]` as a partial lookup: `none` when
the pair is absent from the table. -/
def wheelingLookup (area voltage : String) : Option WheelingEntry :=
  (WHEELING_DATA.lookup area).bind fun t => t.lookup voltage

/-- The streamlit core's tariff access (lines 54-58 of
`src/optimization.py`): `WHEELING_DATA["areas"].get(area, {}).get(voltage,
{})` followed by `.get(field, 0.0)` on each field — an absent pair silently
yields zero values and no error. -/
def wheeling_lookup_streamlit (area voltage : String) : WheelingEntry :=
  match wheelingLookup area voltage with
  | some e => e
  | none => ⟨0, 0, 0⟩

/-- The V1 desktop engine's `_get_wheeling_data` on the config-file path
(`optimization_engine.py` lines 329-335): an empty lookup result raises
`ValueError` before any solving begins. -/
def get_wheeling_data_v1 (area voltage : String) : Except String WheelingEntry :=
  match wheelingLookup area voltage with
  | some e => .ok e
  | none => .error "wheeling data not found for area and voltage"

/-- The V2 engine's `_get_wheeling_data` (`optimization_engine_v2.py` lines
256-277): it imports `get_area_wheeling_data` from `config.area_config`, a
symbol that module does not define, so the `except ImportError` branch always
runs and the hardcoded defaults `loss_rate 0.03`, base charge `500.0`, usage
fee `1.86` are returned for every pair, present or absent. -/
def get_wheeling_data_v2 (_area _voltage : String) : WheelingEntry :=
  ⟨0.03, 500.0, 1.86⟩

/-- C9 (amended).  Only the V1 desktop engine fails on an unknown
(area, voltage) pair: its lookup raises an error exactly when the pair is
absent from the fixed table, before any solving.  The streamlit core's
lookup instead silently yields zero for all three tariff fields when the
pair is absent, and the V2 engine always falls back to hardcoded default
values, so neither of those fails as the original claim states. -/
theorem C9_tariff_lookup (area voltage : String) :
    (wheelingLookup area voltage = none →
      get_wheeling_data_v1 area voltage =
        .error "wheeling data not found for area and voltage") ∧
    (∀ e, wheelingLookup area voltage = some e →
      get_wheeling_data_v1 area voltage = .ok e) ∧
    (wheelingLookup area voltage = none →
      wheeling_lookup_streamlit area voltage = ⟨0, 0, 0⟩) ∧
    get_wheeling_data_v2 area voltage = ⟨0.03, 500.0, 1.86⟩ := by
  refine ⟨?_, ?_, ?_, rfl⟩
  · intro h
    unfold get_wheeling_data_v1
    rw [h]
  · intro e h
    unfold get_wheeling_data_v1
    rw [h]
  · intro h
    unfold wheeling_lookup_streamlit
    rw [h]

/-- Witness for C9: the amended theorem applied to the absent pair
("Okinawa", "HV") and to the present pair ("Tokyo", "HV"). -/
theorem C9_tariff_lookup_witness :
    wheelingLookup "Okinawa" "HV" = none ∧
      get_wheeling_data_v1 "Okinawa" "HV" =
        .error "wheeling data not found for area and voltage" ∧
      wheeling_lookup_streamlit "Okinawa" "HV" = ⟨0, 0, 0⟩ ∧
      wheelingLookup "Tokyo" "HV" = some ⟨0.037, 653.87, 2.37⟩ ∧
      get_wheeling_data_v1 "Tokyo" "HV" = .ok ⟨0.037, 653.87, 2.37⟩ :=
  ⟨rfl, (C9_tariff_lookup "Okinawa" "HV").1 rfl,
    (C9_tariff_lookup "Okinawa" "HV").2.2.1 rfl, rfl,
    (C9_tariff_lookup "Tokyo" "HV").2.1 ⟨0.037, 653.87, 2.37⟩ rfl⟩

/-- Counterexample for C9 as stated: for the absent pair ("Okinawa", "HV")
the streamlit core's lookup raises nothing and silently returns zero for all
three tariff values, with which `run_optimization` then proceeds to solve;
the V2 engine silently returns its hardcoded defaults. -/
theorem C9_counterexample :
    wheelingLookup "Okinawa" "HV" = none ∧
      wheeling_lookup_streamlit "Okinawa" "HV" =
        { loss_rate := 0, wheeling_base_charge := 0,
          wheeling_usage_fee := 0 } ∧
      get_wheeling_data_v2 "Okinawa" "HV" =
        { loss_rate := 0.03, wheeling_base_charge := 500.0,
          wheeling_usage_fee := 1.86 } :=
  ⟨rfl, rfl, rfl⟩

end BatteryOpt
